import Mathlib

/-!
Verification of the drawdb SQL DDL generator (`src/utils/toSQL.js` together
with its helpers in `src/utils/utils.js`) against its natural-language
specification.  The JavaScript source is shallowly embedded: JS strings are
Lean `String`s, JS arrays are Lean `List`s, and every operation that can
crash in JS (out-of-range positional lookup, failed composite-type lookup)
is embedded as an `Option`-valued function where `none` marks the crash.
-/

namespace DrawDB

/- ## Generic string/list helpers used by the embedding -/

/-- A string consisting of a single apostrophe (the SQL single-quote). -/
def sq : String := String.singleton (Char.ofNat 39)

/-- Model of the JavaScript `Array.prototype.join(sep)`: concatenates the
elements of the list with `sep` between consecutive elements. -/
def joinSep (sep : String) : List String → String
  | [] => ""
  | [a] => a
  | a :: b :: rest => a ++ sep ++ joinSep sep (b :: rest)

/-- Model of `String.prototype.toUpperCase` (ASCII range, which covers all
referential-action strings the generator handles). -/
def jsToUpperCase (s : String) : String := ⟨s.data.map Char.toUpper⟩

/-- Model of `String.prototype.toLowerCase` (ASCII range). -/
def jsToLowerCase (s : String) : String := ⟨s.data.map Char.toLower⟩

/-- Maps `f` over a list, failing (crashing, in the JS reading) as soon as
`f` fails on one element.  Used to embed `.map` chains whose body can crash. -/
def optMap (f : α → Option β) : List α → Option (List β)
  | [] => some []
  | a :: l =>
    match f a, optMap f l with
    | some b, some bl => some (b :: bl)
    | _, _ => none

/-- `Substr n h` states that `n` occurs contiguously inside `h`. -/
def Substr (n h : String) : Prop := n.data <:+: h.data

instance (n h : String) : Decidable (Substr n h) :=
  List.decidableInfix n.data h.data

/-- `SubstrOrd m n h`: `m` and `n` both occur in `h`, with the occurrence of
`m` entirely before the occurrence of `n`. -/
def SubstrOrd (m n h : String) : Prop :=
  ∃ a b c, h = a ++ m ++ b ++ n ++ c

/- ## Data model (spec §3): diagram documents consumed by the generator -/

/-- A column of a table (or a component of a composite type). -/
structure Field where
  name : String
  type : String
  size : String
  values : List String
  notNull : Bool
  unique : Bool
  increment : Bool
  primary : Bool
  default : String
  check : String
  comment : String
deriving Repr, DecidableEq

/-- An index over the field names of its owning table. -/
structure TableIndex where
  name : String
  unique : Bool
  fields : List String
deriving Repr, DecidableEq

/-- A table: stable positional `id`, name, comment, fields and indices. -/
structure Table where
  id : Nat
  name : String
  comment : String
  fields : List Field
  indices : List TableIndex
deriving Repr, DecidableEq

/-- A foreign-key reference, all endpoints positional indices. -/
structure Reference where
  startTableId : Nat
  startFieldId : Nat
  endTableId : Nat
  endFieldId : Nat
  updateConstraint : String
  deleteConstraint : String
deriving Repr, DecidableEq

/-- A user-defined composite type. -/
structure DType where
  name : String
  comment : String
  fields : List Field
deriving Repr, DecidableEq

/-- A whole diagram document. -/
structure Diagram where
  tables : List Table
  references : List Reference
  types : List DType
deriving Repr, DecidableEq

/- ## Embedding of `src/utils/utils.js` -/

/-- From `utils.js`: true when the string is at least two characters long and
its first and last characters are the same quote character
(apostrophe, double quote, or backtick). -/
def strHasQuotes (str : String) : Bool :=
  if str.data.length < 2 then false
  else
    match str.data.head?, str.data.getLast? with
    | some c, some d =>
      (c = d && c = Char.ofNat 39) ||
      (c = d && c = Char.ofNat 34) ||
      (c = d && c = Char.ofNat 96)
    | _, _ => false

/-- From `utils.js`: the module-level keyword list. -/
def keywords : List String := ["CURRENT_TIMESTAMP", "NULL"]

/-- From `utils.js`: membership of the upper-cased string in `keywords`. -/
def isKeyword (str : String) : Bool := keywords.contains (jsToUpperCase str)

/-- A character matched by the JavaScript regex class `\w`. -/
def isWordChar (c : Char) : Bool :=
  (Char.ofNat 65 ≤ c && c ≤ Char.ofNat 90) ||
  (Char.ofNat 97 ≤ c && c ≤ Char.ofNat 122) ||
  (Char.ofNat 48 ≤ c && c ≤ Char.ofNat 57) ||
  c = Char.ofNat 95

/-- Helper for `isFunction`: scans the reversed string body (everything
before the final closing parenthesis) looking for an opening parenthesis
that is preceded, in the original string, by a word character, without
crossing another closing parenthesis. -/
def isFnRev : List Char → Bool
  | [] => false
  | c :: rest =>
    if c = ')' then false
    else if c = '(' then
      (match rest with
       | d :: _ => isWordChar d
       | [] => false) || isFnRev rest
    else isFnRev rest

/-- From `utils.js`: the test `/\w+\([^)]*\)$/.test(str)`.  The regex is
anchored only at the end of the string: it succeeds exactly when the string
ends with `)` and some `(` before it is preceded by a word character with no
`)` between that `(` and the final one. -/
def isFunction (str : String) : Bool :=
  match str.data.reverse with
  | c :: rest => if c = ')' then isFnRev rest else false
  | [] => false

/- ## Spec-modelled constant from `src/data/constants` -/

/-- Modelled from the spec: the fixed recognized SQL type vocabulary
`sqlDataTypes` is imported by `toSQL.js` from `src/data/constants`, a file
absent from the provided sources.  The spec (§3) fixes the vocabulary as the
numeric, boolean, sized text/binary, precision-numeric and temporal
categories plus `ENUM`, `SET`, `UUID` and `JSON`; the member names are the
ones the source's own `switch`/list dispatches enumerate. -/
def sqlDataTypes : List String :=
  ["INT", "SMALLINT", "BIGINT", "DECIMAL", "NUMERIC", "FLOAT", "DOUBLE",
   "REAL", "CHAR", "VARCHAR", "TEXT", "TIME", "DATE", "DATETIME",
   "TIMESTAMP", "BOOLEAN", "BINARY", "VARBINARY", "BLOB", "JSON", "UUID",
   "ENUM", "SET"]

/- ## Embedding of `src/utils/toSQL.js`: helpers -/

/-- From `toSQL.js`: the sized types. -/
def isSized (type : String) : Bool :=
  ["CHAR", "VARCHAR", "BINARY", "VARBINARY", "TEXT"].contains type

/-- From `toSQL.js`: the precision types. -/
def hasPrecision (type : String) : Bool :=
  ["DOUBLE", "NUMERIC", "DECIMAL", "FLOAT"].contains type

/-- From `toSQL.js`: the types eligible for an explicit CHECK clause. -/
def hasCheck (type : String) : Bool :=
  ["INT", "SMALLINT", "BIGINT", "CHAR", "VARCHAR", "FLOAT", "DECIMAL",
   "DOUBLE", "NUMERIC", "REAL"].contains type

/-- From `toSQL.js`: the types whose default values require quoting. -/
def hasQuotes (type : String) : Bool :=
  ["CHAR", "VARCHAR", "BINARY", "VARBINARY", "ENUM", "DATE", "TIME",
   "TIMESTAMP", "DATETIME"].contains type

/-- From `toSQL.js`: serializes `field.default` for inline use after
`DEFAULT`, wrapping it in single quotes unless it is already quoted, looks
like a function call, is a keyword, or the field type needs no quoting. -/
def parseDefault (field : Field) : String :=
  if strHasQuotes field.default || isFunction field.default ||
      isKeyword field.default || !(hasQuotes field.type) then
    field.default
  else
    sq ++ field.default ++ sq

/-- From `toSQL.js`: the JSON-Schema fragment for one field of a composite
type.  The unrecognized-type branch comes first and emits its
`additionalProperties` key without surrounding double quotes, exactly as the
source string literal does. -/
def getJsonType (f : Field) : String :=
  if !(sqlDataTypes.contains f.type) then
    "\x7b \"type\" : \"object\", additionalProperties : true \x7d"
  else if ["INT", "SMALLINT", "BIGINT", "DECIMAL", "NUMERIC", "REAL",
      "FLOAT"].contains f.type then
    "\x7b \"type\" : \"number\" \x7d"
  else if f.type = "BOOLEAN" then
    "\x7b \"type\" : \"boolean\" \x7d"
  else if f.type = "JSON" then
    "\x7b \"type\" : \"object\", \"additionalProperties\" : true \x7d"
  else if f.type = "ENUM" then
    "\x7b\n\t\t\t\t\t\"type\" : \"string\",\n\t\t\t\t\t\"enum\" : [" ++
      joinSep (", ") (f.values.map (fun v => "\"" ++ v ++ "\"")) ++
      "]\n\t\t\t\t\x7d"
  else if f.type = "SET" then
    "\x7b\n\t\t\t\t\t\"type\": \"array\",\n\t\t\t\t\t\"items\": \x7b\n\t\t\t\t\t\t\"type\": \"string\",\n\t\t\t\t\t\t\"enum\": [" ++
      joinSep (", ") (f.values.map (fun v => "\"" ++ v ++ "\"")) ++
      "]\n\t\t\t\t\t\x7d\n\t\t\t\t\x7d"
  else
    "\x7b \"type\" : \"string\"\x7d"

/-- From `toSQL.js`: renders a composite type as a JSON-Schema text with
`"type": "object"`, one property per field, and
`"additionalProperties": false`. -/
def generateSchema (type : DType) : String :=
  "\x7b\n\t\t\t\"$schema\": \"http://json-schema.org/draft-04/schema#\",\n\t\t\t\"type\": \"object\",\n\t\t\t\"properties\": \x7b\n\t\t\t\t" ++
    joinSep (",\n\t\t\t\t")
      (type.fields.map (fun f => "\"" ++ f.name ++ "\" : " ++ getJsonType f)) ++
    "\n\t\t\t\x7d,\n\t\t\t\"additionalProperties\": false\n\t\t\x7d"

/-- From `toSQL.js`: the per-dialect type token for a field.  The source's
default parameter values (`dbms = "mysql"`, `baseType = false`) are passed
explicitly at every call site of this embedding.  The source returns
`undefined` for a `dbms` outside mysql/postgres/mssql; that branch is never
reached by the compilers and is embedded as the empty string. -/
def getTypeString (field : Field) (dbms : String) (baseType : Bool) : String :=
  if dbms = "mysql" then
    if field.type = "UUID" then "VARCHAR(36)"
    else if hasPrecision field.type || isSized field.type then
      field.type ++ (if field.size ≠ "" then "(" ++ field.size ++ ")" else "")
    else if field.type = "SET" ∨ field.type = "ENUM" then
      field.type ++ "(" ++
        joinSep (", ") (field.values.map (fun v => "\"" ++ v ++ "\"")) ++ ")"
    else if !(sqlDataTypes.contains field.type) then "JSON"
    else field.type
  else if dbms = "postgres" then
    if field.type = "SMALLINT" ∧ field.increment then "smallserial"
    else if field.type = "INT" ∧ field.increment then "serial"
    else if field.type = "BIGINT" ∧ field.increment then "bigserial"
    else if field.type = "ENUM" then field.name ++ "_t"
    else if field.type = "SET" then field.name ++ "_t[]"
    else if field.type = "TIMESTAMP" then "TIMESTAMPTZ"
    else if field.type = "DATETIME" then "timestamp"
    else if isSized field.type then
      (if field.type = "BINARY" then "bit"
       else if field.type = "VARBINARY" then "bit varying"
       else jsToLowerCase field.type) ++ "(" ++ field.size ++ ")"
    else if hasPrecision field.type ∧ field.size ≠ "" then
      field.type ++ field.size
    else jsToLowerCase field.type
  else if dbms = "mssql" then
    if field.type = "ENUM" then
      if baseType then "NVARCHAR(255)"
      else
        "NVARCHAR(255) CHECK([" ++ field.name ++ "] in (" ++
          joinSep (", ") (field.values.map (fun v => sq ++ v ++ sq)) ++ "))"
    else if field.type = "BOOLEAN" then "BIT"
    else if field.type = "SET" then "NVARCHAR(255)"
    else if field.type = "BLOB" then "VARBINARY(MAX)"
    else if field.type = "JSON" then "NVARCHAR(MAX)"
    else if field.type = "TEXT" then "TEXT"
    else
      let type :=
        if field.type = "VARCHAR" then "NVARCHAR"
        else if field.type = "UUID" then "UNIQUEIDENTIFIER"
        else if field.type = "DOUBLE" then "FLOAT"
        else field.type
      if isSized field.type then type ++ "(" ++ field.size ++ ")" else type
  else ""

/-- From `toSQL.js`: the SQLite type token for a field; every type outside
the enumerated cases falls back to `BLOB`. -/
def getSQLiteType (field : Field) : String :=
  if ["INT", "SMALLINT", "BIGINT", "BOOLEAN"].contains field.type then
    "INTEGER"
  else if ["DECIMAL", "NUMERIC", "FLOAT", "DOUBLE", "REAL"].contains
      field.type then
    "REAL"
  else if ["CHAR", "VARCHAR", "UUID", "TEXT", "DATE", "TIME", "TIMESTAMP",
      "DATETIME", "BINARY", "VARBINARY"].contains field.type then
    "TEXT"
  else if field.type = "ENUM" then
    "TEXT CHECK(\"" ++ field.name ++ "\" in (" ++
      joinSep (", ") (field.values.map (fun v => sq ++ v ++ sq)) ++ "))"
  else "BLOB"

/-- The `ON UPDATE ... ON DELETE ...` tail shared verbatim by every
foreign-key template in the source: both referential actions are emitted
upper-cased. -/
def refTailClause (r : Reference) : String :=
  "ON UPDATE " ++ jsToUpperCase r.updateConstraint ++ " ON DELETE " ++
    jsToUpperCase r.deleteConstraint

/- ## MySQL compiler -/

/-- One column line of `jsonToMySQL`.  `none` models the crash when an
opaque field's composite type is absent from the diagram's types. -/
def mysqlColumn (types : List DType) (field : Field) : Option String :=
  (if field.check = "" ∨ !(hasCheck field.type) then
     (if !(sqlDataTypes.contains field.type) then
        match types.find? (fun t => t.name == jsToLowerCase field.type) with
        | some t =>
          some (" CHECK(\n\t\tJSON_SCHEMA_VALID(\"" ++ generateSchema t ++
            "\", `" ++ field.name ++ "`))")
        | none => none
      else some "")
   else some (" CHECK(" ++ field.check ++ ")")).map
  (fun chk =>
    (if field.comment = "" then "" else "\t-- " ++ field.comment ++ "\n") ++
    "\t`" ++ field.name ++ "` " ++ getTypeString field ("mysql") false ++
    (if field.notNull then " NOT NULL" else "") ++
    (if field.increment then " AUTO_INCREMENT" else "") ++
    (if field.unique then " UNIQUE" else "") ++
    (if field.default ≠ "" then " DEFAULT " ++ parseDefault field else "") ++
    chk ++
    (if field.comment ≠ "" then " COMMENT " ++ sq ++ field.comment ++ sq
     else ""))

/-- One `CREATE INDEX` statement of `jsonToMySQL`. -/
def mysqlIndex (tableName : String) (i : TableIndex) : String :=
  "\nCREATE " ++ (if i.unique then "UNIQUE " else "") ++ "INDEX `" ++
    i.name ++ "`\nON `" ++ tableName ++ "` (" ++
    joinSep (", ") (i.fields.map (fun f => "`" ++ f ++ "`")) ++ ");"

/-- One `CREATE TABLE` statement of `jsonToMySQL` (with its indices).  The
source interpolates the mapped index array without `.join`, so JavaScript
joins consecutive index statements with a comma. -/
def mysqlTable (types : List DType) (table : Table) : Option String :=
  (optMap (mysqlColumn types) table.fields).map (fun cols =>
    (if table.comment = "" then "" else "/* " ++ table.comment ++ " */\n") ++
    "CREATE TABLE `" ++ table.name ++ "` (\n" ++
    joinSep (",\n") cols ++
    (if 0 < (table.fields.filter (fun f => f.primary)).length then
       ",\n\tPRIMARY KEY(" ++
       joinSep (", ")
         ((table.fields.filter (fun f => f.primary)).map
           (fun f => "`" ++ f.name ++ "`")) ++ ")"
     else "") ++
    "\n)" ++
    (if table.comment ≠ "" then " COMMENT=" ++ sq ++ table.comment ++ sq
     else "") ++
    ";\n" ++
    (if 0 < table.indices.length then
       "\n" ++ joinSep (",") (table.indices.map (mysqlIndex table.name))
     else ""))

/-- One trailing `ALTER TABLE ... ADD FOREIGN KEY` statement of
`jsonToMySQL`; `none` models the crash on an out-of-range positional
lookup. -/
def mysqlRef (tables : List Table) (r : Reference) : Option String :=
  match tables.get? r.startTableId, tables.get? r.endTableId with
  | some st, some et =>
    match st.fields.get? r.startFieldId, et.fields.get? r.endFieldId with
    | some sf, some ef =>
      some ("ALTER TABLE `" ++ st.name ++ "`\nADD FOREIGN KEY(`" ++
        sf.name ++ "`) REFERENCES `" ++ et.name ++ "`(`" ++ ef.name ++
        "`)\n" ++ refTailClause r ++ ";")
    | _, _ => none
  | _, _ => none

/-- From `toSQL.js`: the MySQL dialect compiler. -/
def jsonToMySQL (obj : Diagram) : Option String :=
  match optMap (mysqlTable obj.types) obj.tables,
      optMap (mysqlRef obj.tables) obj.references with
  | some ts, some rs => some (joinSep ("\n") ts ++ "\n" ++ joinSep ("\n") rs)
  | _, _ => none

/- ## MariaDB compiler -/

/-- One column line of `jsonToMariaDB`: as in MySQL except that the
JSON-Schema argument is single-quoted and no trailing `COMMENT` clause is
emitted. -/
def mariadbColumn (types : List DType) (field : Field) : Option String :=
  (if field.check = "" ∨ !(hasCheck field.type) then
     (if !(sqlDataTypes.contains field.type) then
        match types.find? (fun t => t.name == jsToLowerCase field.type) with
        | some t =>
          some (" CHECK(\n\t\tJSON_SCHEMA_VALID(" ++ sq ++
            generateSchema t ++ sq ++ ", `" ++ field.name ++ "`))")
        | none => none
      else some "")
   else some (" CHECK(" ++ field.check ++ ")")).map
  (fun chk =>
    (if field.comment = "" then "" else "\t-- " ++ field.comment ++ "\n") ++
    "\t`" ++ field.name ++ "` " ++ getTypeString field ("mysql") false ++
    (if field.notNull then " NOT NULL" else "") ++
    (if field.increment then " AUTO_INCREMENT" else "") ++
    (if field.unique then " UNIQUE" else "") ++
    (if field.default ≠ "" then " DEFAULT " ++ parseDefault field else "") ++
    chk)

/-- One `CREATE OR REPLACE TABLE` statement of `jsonToMariaDB`.  Its index
statements use the same template as MySQL and are likewise interpolated
without `.join`, hence comma-separated. -/
def mariadbTable (types : List DType) (table : Table) : Option String :=
  (optMap (mariadbColumn types) table.fields).map (fun cols =>
    (if table.comment = "" then "" else "/* " ++ table.comment ++ " */\n") ++
    "CREATE OR REPLACE TABLE `" ++ table.name ++ "` (\n" ++
    joinSep (",\n") cols ++
    (if 0 < (table.fields.filter (fun f => f.primary)).length then
       ",\n\tPRIMARY KEY(" ++
       joinSep (", ")
         ((table.fields.filter (fun f => f.primary)).map
           (fun f => "`" ++ f.name ++ "`")) ++ ")"
     else "") ++
    "\n);" ++
    (if 0 < table.indices.length then
       "\n" ++ joinSep (",") (table.indices.map (mysqlIndex table.name))
     else ""))

/-- The `ALTER TABLE ... ADD FOREIGN KEY` template of `jsonToMariaDB` is
textually identical to the MySQL one in the source. -/
def mariadbRef (tables : List Table) (r : Reference) : Option String :=
  mysqlRef tables r

/-- From `toSQL.js`: the MariaDB dialect compiler. -/
def jsonToMariaDB (obj : Diagram) : Option String :=
  match optMap (mariadbTable obj.types) obj.tables,
      optMap (mariadbRef obj.tables) obj.references with
  | some ts, some rs => some (joinSep ("\n") ts ++ "\n" ++ joinSep ("\n") rs)
  | _, _ => none

/- ## PostgreSQL compiler -/

/-- The backing `CREATE TYPE ... AS ENUM` statement `jsonToPostgreSQL`
emits before a table for each of that table's `ENUM`/`SET` fields. -/
def pgEnumTypeForTable (f : Field) : String :=
  "CREATE TYPE \"" ++ f.name ++ "_t\" AS ENUM (" ++
    joinSep (", ") (f.values.map (fun v => sq ++ v ++ sq)) ++ ");\n\n"

/-- The backing `CREATE TYPE ... AS ENUM` statement `jsonToPostgreSQL`
emits for an `ENUM`/`SET` field of a composite type (single trailing
newline). -/
def pgEnumTypeForType (f : Field) : String :=
  "CREATE TYPE \"" ++ f.name ++ "_t\" AS ENUM (" ++
    joinSep (", ") (f.values.map (fun v => sq ++ v ++ sq)) ++ ");\n"

/-- One `CREATE TYPE` declaration of `jsonToPostgreSQL` for a composite
type, preceded by the backing enum statements of its `ENUM`/`SET` fields
(joined with the empty string, as `.join("")` does). -/
def pgTypeDecl (type : DType) : String :=
  let typeStatements :=
    (type.fields.filter (fun f => f.type == "ENUM" || f.type == "SET")).map
      pgEnumTypeForType
  let body :=
    (if type.comment = "" then "" else "/**\n" ++ type.comment ++ "\n*/\n") ++
    "CREATE TYPE " ++ type.name ++ " AS (\n" ++
    joinSep ("\n")
      (type.fields.map
        (fun f => "\t" ++ f.name ++ " " ++ getTypeString f ("postgres") false)) ++
    "\n);"
  if 0 < typeStatements.length then joinSep ("") typeStatements ++ body
  else body

/-- One column line of `jsonToPostgreSQL` (no unique/increment clause; the
serial types already encode auto-increment). -/
def pgColumn (field : Field) : String :=
  (if field.comment = "" then "" else "\t-- " ++ field.comment ++ "\n") ++
  "\t\"" ++ field.name ++ "\" " ++ getTypeString field ("postgres") false ++
  (if field.notNull then " NOT NULL" else "") ++
  (if field.default ≠ "" then " DEFAULT " ++ parseDefault field else "") ++
  (if field.check = "" ∨ !(hasCheck field.type) then ""
   else " CHECK(" ++ field.check ++ ")")

/-- One `CREATE INDEX` statement of `jsonToPostgreSQL`. -/
def pgIndex (tableName : String) (i : TableIndex) : String :=
  "\nCREATE " ++ (if i.unique then "UNIQUE " else "") ++ "INDEX \"" ++
    i.name ++ "\"\nON \"" ++ tableName ++ "\" (" ++
    joinSep (", ") (i.fields.map (fun f => "\"" ++ f ++ "\"")) ++ ");"

/-- One `CREATE TABLE` statement of `jsonToPostgreSQL`, preceded by the
backing enum types of its `ENUM`/`SET` fields.  Both the per-field enum
block and the index block are interpolated without `.join`, hence
comma-joined by JavaScript. -/
def pgTable (table : Table) : String :=
  (if table.comment = "" then "" else "/**\n" ++ table.comment ++ "\n*/\n") ++
  (if 0 < (table.fields.filter
      (fun f => f.type == "ENUM" || f.type == "SET")).length then
     joinSep (",")
       ((table.fields.filter
           (fun f => f.type == "ENUM" || f.type == "SET")).map
         pgEnumTypeForTable)
   else "") ++
  "CREATE TABLE \"" ++ table.name ++ "\" (\n" ++
  joinSep (",\n") (table.fields.map pgColumn) ++
  (if 0 < (table.fields.filter (fun f => f.primary)).length then
     ",\n\tPRIMARY KEY(" ++
     joinSep (", ")
       ((table.fields.filter (fun f => f.primary)).map
         (fun f => "\"" ++ f.name ++ "\"")) ++ ")"
   else "") ++
  "\n);\n" ++
  (if 0 < table.indices.length then
     joinSep (",") (table.indices.map (pgIndex table.name))
   else "")

/-- One trailing `ALTER TABLE ... ADD FOREIGN KEY` statement of
`jsonToPostgreSQL`. -/
def pgRef (tables : List Table) (r : Reference) : Option String :=
  match tables.get? r.startTableId, tables.get? r.endTableId with
  | some st, some et =>
    match st.fields.get? r.startFieldId, et.fields.get? r.endFieldId with
    | some sf, some ef =>
      some ("ALTER TABLE \"" ++ st.name ++ "\"\nADD FOREIGN KEY(\"" ++
        sf.name ++ "\") REFERENCES \"" ++ et.name ++ "\"(\"" ++ ef.name ++
        "\")\n" ++ refTailClause r ++ ";")
    | _, _ => none
  | _, _ => none

/-- From `toSQL.js`: the PostgreSQL dialect compiler.  The composite-type
declarations are interpolated without `.join`, hence comma-joined. -/
def jsonToPostgreSQL (obj : Diagram) : Option String :=
  (optMap (pgRef obj.tables) obj.references).map (fun rs =>
    joinSep (",") (obj.types.map pgTypeDecl) ++ "\n" ++
    joinSep ("\n") (obj.tables.map pgTable) ++ "\n" ++
    joinSep ("\n") rs)

/- ## SQLite compiler -/

/-- One column line of `jsonToSQLite`. -/
def sqliteColumn (field : Field) : String :=
  (if field.comment = "" then "" else "\t-- " ++ field.comment ++ "\n") ++
  "\t\"" ++ field.name ++ "\" " ++ getSQLiteType field ++
  (if field.notNull then " NOT NULL" else "") ++
  (if field.unique then " UNIQUE" else "") ++
  (if field.default ≠ "" then " DEFAULT " ++ parseDefault field else "") ++
  (if field.check = "" ∨ !(hasCheck field.type) then ""
   else " CHECK(" ++ field.check ++ ")")

/-- The inline `FOREIGN KEY` clause text built for one matching reference
(`none` models the crash on an out-of-range positional lookup). -/
def inlineFKText (table : Table) (tables : List Table) (r : Reference) :
    Option String :=
  match table.fields.get? r.startFieldId, tables.get? r.endTableId with
  | some sf, some et =>
    match et.fields.get? r.endFieldId with
    | some ef =>
      some ("FOREIGN KEY (\"" ++ sf.name ++ "\") REFERENCES \"" ++
        et.name ++ "\"(\"" ++ ef.name ++ "\")\n\t" ++ refTailClause r)
    | none => none
  | _, _ => none

/-- The `forEach` accumulation of `getInlineFK`: once the accumulator is a
non-empty string every later reference is skipped. -/
def getInlineFKAux (table : Table) (tables : List Table) :
    List Reference → String → Option String
  | [], fk => some fk
  | r :: rest, fk =>
    if fk ≠ "" then getInlineFKAux table tables rest fk
    else if r.startTableId = table.id then
      match inlineFKText table tables r with
      | some s => getInlineFKAux table tables rest s
      | none => none
    else getInlineFKAux table tables rest fk

/-- From `toSQL.js`: the inline foreign-key clause for a table, taken from
the first reference whose `startTableId` equals the table's id. -/
def getInlineFK (table : Table) (obj : Diagram) : Option String :=
  getInlineFKAux table obj.tables obj.references ""

/-- One `CREATE INDEX` statement of `jsonToSQLite`. -/
def sqliteIndex (tableName : String) (i : TableIndex) : String :=
  "\nCREATE " ++ (if i.unique then "UNIQUE " else "") ++
    "INDEX IF NOT EXISTS \"" ++ i.name ++ "\"\nON \"" ++ tableName ++
    "\" (" ++ joinSep (", ") (i.fields.map (fun f => "\"" ++ f ++ "\"")) ++
    ");"

/-- One `CREATE TABLE IF NOT EXISTS` statement of `jsonToSQLite`, with the
inline foreign-key clause inside the table body and the index statements
joined with a newline (the one dialect using an explicit `.join("\n")`). -/
def sqliteTable (obj : Diagram) (table : Table) : Option String :=
  (getInlineFK table obj).map (fun inlineFK =>
    (if table.comment = "" then "" else "/* " ++ table.comment ++ " */\n") ++
    "CREATE TABLE IF NOT EXISTS \"" ++ table.name ++ "\" (\n" ++
    joinSep (",\n") (table.fields.map sqliteColumn) ++
    (if 0 < (table.fields.filter (fun f => f.primary)).length then
       ",\n\tPRIMARY KEY(" ++
       joinSep (", ")
         ((table.fields.filter (fun f => f.primary)).map
           (fun f => "\"" ++ f.name ++ "\"")) ++ ")" ++
       (if inlineFK ≠ "" then ",\n" else "")
     else "") ++
    "\t" ++ inlineFK ++ "\n);\n" ++
    (if 0 < table.indices.length then
       joinSep ("\n") (table.indices.map (sqliteIndex table.name))
     else ""))

/-- From `toSQL.js`: the SQLite dialect compiler; the output is only the
joined table statements, with no trailing `ALTER TABLE` section. -/
def jsonToSQLite (obj : Diagram) : Option String :=
  (optMap (sqliteTable obj) obj.tables).map (fun ts => joinSep ("\n") ts)

/- ## SQL Server compiler -/

/-- One column line of `jsonToSQLServer`. -/
def mssqlColumn (field : Field) : String :=
  (if field.comment = "" then "" else "\t-- " ++ field.comment ++ "\n") ++
  "\t[" ++ field.name ++ "] " ++ getTypeString field ("mssql") false ++
  (if field.notNull then " NOT NULL" else "") ++
  (if field.increment then " IDENTITY" else "") ++
  (if field.unique then " UNIQUE" else "") ++
  (if field.default ≠ "" then " DEFAULT " ++ parseDefault field else "") ++
  (if field.check = "" ∨ !(hasCheck field.type) then ""
   else " CHECK(" ++ field.check ++ ")")

/-- One `CREATE INDEX` statement of `jsonToSQLServer`. -/
def mssqlIndex (tableName : String) (i : TableIndex) : String :=
  "\nCREATE " ++ (if i.unique then "UNIQUE " else "") ++ "INDEX [" ++
    i.name ++ "]\nON [" ++ tableName ++ "] (" ++
    joinSep (", ") (i.fields.map (fun f => "[" ++ f ++ "]")) ++ ");\nGO\n"

/-- One `CREATE TABLE` statement of `jsonToSQLServer` (indices interpolated
without `.join`, hence comma-joined). -/
def mssqlTable (table : Table) : String :=
  (if table.comment = "" then "" else "/**\n" ++ table.comment ++ "\n*/\n") ++
  "CREATE TABLE [" ++ table.name ++ "] (\n" ++
  joinSep (",\n") (table.fields.map mssqlColumn) ++
  (if 0 < (table.fields.filter (fun f => f.primary)).length then
     ",\n\tPRIMARY KEY(" ++
     joinSep (", ")
       ((table.fields.filter (fun f => f.primary)).map
         (fun f => "[" ++ f.name ++ "]")) ++ ")"
   else "") ++
  "\n);\nGO\n" ++
  (if 0 < table.indices.length then
     joinSep (",") (table.indices.map (mssqlIndex table.name))
   else "")

/-- One `CREATE TYPE ... FROM` declaration of `jsonToSQLServer`.  The
source guards the base-type expression with `type.fields.length < 0`, which
is never true, so the base type is always taken from `type.fields[0]`;
`none` models the crash on an empty field list. -/
def mssqlTypeDecl (t : DType) : Option String :=
  (if t.fields.length < 0 then some ("")
   else (t.fields.head?).map (fun f => getTypeString f ("mssql") true)).map
  (fun base =>
    (if t.comment = "" then "" else "/**\n" ++ t.comment ++ "\n*/\n") ++
    "CREATE TYPE [" ++ t.name ++ "] FROM " ++ base ++ ";\nGO\n")

/-- One trailing `ALTER TABLE ... ADD FOREIGN KEY` statement of
`jsonToSQLServer` (followed by the `GO` batch separator). -/
def mssqlRef (tables : List Table) (r : Reference) : Option String :=
  match tables.get? r.startTableId, tables.get? r.endTableId with
  | some st, some et =>
    match st.fields.get? r.startFieldId, et.fields.get? r.endFieldId with
    | some sf, some ef =>
      some ("ALTER TABLE [" ++ st.name ++ "]\nADD FOREIGN KEY([" ++
        sf.name ++ "]) REFERENCES [" ++ et.name ++ "]([" ++ ef.name ++
        "])\n" ++ refTailClause r ++ ";\nGO")
    | _, _ => none
  | _, _ => none

/-- From `toSQL.js`: the SQL Server dialect compiler. -/
def jsonToSQLServer (obj : Diagram) : Option String :=
  match optMap mssqlTypeDecl obj.types,
      optMap (mssqlRef obj.tables) obj.references with
  | some tys, some rs =>
    some (joinSep ("\n") tys ++ "\n" ++
      joinSep ("\n") (obj.tables.map mssqlTable) ++ "\n" ++
      joinSep ("\n") rs)
  | _, _ => none

/- ## Infrastructure lemmas about substrings and joins -/

theorem joinSep_cons2 (sep a b : String) (l : List String) :
    joinSep sep (a :: b :: l) = a ++ sep ++ joinSep sep (b :: l) := rfl

theorem substr_of_split {n s : String} (a b : String)
    (h : s = a ++ n ++ b) : Substr n s := by
  subst h
  exact ⟨a.data, b.data, by simp [String.data_append]⟩

theorem substr_self (s : String) : Substr s s := List.infix_rfl

theorem Substr.appL {n s : String} (a : String) (h : Substr n s) :
    Substr n (a ++ s) := by
  obtain ⟨u, v, huv⟩ := h
  exact ⟨a.data ++ u, v, by rw [String.data_append, ← huv]; simp⟩

theorem Substr.appR {n s : String} (b : String) (h : Substr n s) :
    Substr n (s ++ b) := by
  obtain ⟨u, v, huv⟩ := h
  exact ⟨u, v ++ b.data, by rw [String.data_append, ← huv]; simp⟩

theorem Substr.trans {a b c : String} (h₁ : Substr a b) (h₂ : Substr b c) :
    Substr a c := List.IsInfix.trans h₁ h₂

theorem substr_joinSep_of_mem {x : String} (sep : String) :
    ∀ {l : List String}, x ∈ l → Substr x (joinSep sep l) := by
  intro l
  induction l with
  | nil => intro hx; cases hx
  | cons a rest ih =>
    intro hx
    cases hx with
    | head =>
      cases rest with
      | nil => exact substr_self x
      | cons b r =>
        rw [joinSep_cons2]
        exact (substr_self x).appR sep |>.appR (joinSep sep (b :: r))
    | tail _ hm =>
      cases rest with
      | nil => cases hm
      | cons b r =>
        rw [joinSep_cons2]
        exact (ih hm).appL (a ++ sep)

theorem substr_joinSep_pair (sep a b : String) (l : List String) :
    Substr (a ++ sep ++ b) (joinSep sep (a :: b :: l)) := by
  cases l with
  | nil => rw [joinSep_cons2]; exact substr_self _
  | cons c r =>
    rw [joinSep_cons2, joinSep_cons2]
    refine substr_of_split ("") (sep ++ joinSep sep (c :: r)) ?_
    apply String.ext
    simp [String.data_append]

theorem optMap_mem {α β : Type} {f : α → Option β} :
    ∀ {l : List α} {res : List β}, optMap f l = some res →
      ∀ {a : α}, a ∈ l → ∃ b, f a = some b ∧ b ∈ res := by
  intro l
  induction l with
  | nil => intro res _ a ha; cases ha
  | cons x rest ih =>
    intro res h a ha
    unfold optMap at h
    cases hfx : f x with
    | none => rw [hfx] at h; exact absurd h (by simp)
    | some b =>
      cases hrest : optMap f rest with
      | none => rw [hfx, hrest] at h; exact absurd h (by simp)
      | some bl =>
        rw [hfx, hrest] at h
        have hres : b :: bl = res := by simpa using h
        cases ha with
        | head =>
          exact ⟨b, hfx, by rw [← hres]; exact List.mem_cons_self _ _⟩
        | tail _ hm =>
          obtain ⟨c, hc, hcm⟩ := ih hrest hm
          exact ⟨c, hc, by rw [← hres]; exact List.mem_cons_of_mem _ hcm⟩

/- ## Claim C1: the Literal Serializer decision rule -/

/-- The spec's quoting-exempt type classes, as written in the claim: a type
does not require quoting when it is numeric (including the precision
numerics), boolean, `JSON`, enum/set, or an opaque (unrecognized) type
name. -/
def specNoQuoteType (t : String) : Bool :=
  ["INT", "SMALLINT", "BIGINT", "DECIMAL", "NUMERIC", "FLOAT", "DOUBLE",
   "REAL"].contains t ||
  t == "BOOLEAN" || t == "JSON" || t == "ENUM" || t == "SET" ||
  !(sqlDataTypes.contains t)

/-- The spec's ordered decision rule for serializing a default value,
transcribed from the claim's words (quote-delimited, then function call,
then keyword, then quoting-exempt type, else wrap in single quotes), with
the type-exemption stage given by `specNoQuoteType`. -/
def specSerializeDefault (field : Field) : String :=
  if strHasQuotes field.default then field.default
  else if isFunction field.default then field.default
  else if keywords.contains (jsToUpperCase field.default) then field.default
  else if specNoQuoteType field.type then field.default
  else sq ++ field.default ++ sq

/-- The amended exemption stage: a type requires quoting exactly when it is
in the source's `hasQuotes` list, so `ENUM` defaults are wrapped while
`TEXT`, `BLOB`, `UUID`, `SET` and opaque type names are exempt. -/
def specSerializeDefaultAmended (field : Field) : String :=
  if strHasQuotes field.default then field.default
  else if isFunction field.default then field.default
  else if isKeyword field.default then field.default
  else if !(hasQuotes field.type) then field.default
  else sq ++ field.default ++ sq

/-- A concrete `ENUM` field with the bare default value `active`. -/
def enumDefaultField : Field :=
  ⟨"status", "ENUM", "", ["active", "banned"], false, false, false, false,
   "active", "", ""⟩

/-- Claim C1, counterexample: on an `ENUM` field with a bare default the
code wraps the value in single quotes, while the claim's decision rule
(which lists enum/set among the types that do not require quoting) leaves
it unchanged, so `parseDefault` does not implement the claimed rule. -/
theorem parseDefault_ne_spec_on_enum :
    parseDefault enumDefaultField ≠ specSerializeDefault enumDefaultField ∧
    parseDefault enumDefaultField = sq ++ "active" ++ sq ∧
    specSerializeDefault enumDefaultField = "active" := by
  refine ⟨by decide, by decide, by decide⟩

/-- Claim C1, amended: `parseDefault` applies the spec's four exemption
checks in order — already-quoted value, function-call shaped value, keyword
(`CURRENT_TIMESTAMP`/`NULL` up to case), and a type outside the
quoting-required set `CHAR, VARCHAR, BINARY, VARBINARY, ENUM, DATE, TIME,
TIMESTAMP, DATETIME` — emitting the raw value unchanged in those cases and
otherwise wrapping it in single quotes. -/
theorem parseDefault_eq_spec_amended (field : Field) :
    parseDefault field = specSerializeDefaultAmended field := by
  unfold parseDefault specSerializeDefaultAmended
  cases h1 : strHasQuotes field.default <;>
    cases h2 : isFunction field.default <;>
      cases h3 : isKeyword field.default <;>
        cases h4 : hasQuotes field.type <;>
          simp [h1, h2, h3, h4]

/- ## Claim C4: silent fallback for unrecognized type names -/

theorem sqlDataTypes_of_hasPrecision {t : String}
    (h : hasPrecision t = true) : sqlDataTypes.contains t = true := by
  have hm : t ∈ ["DOUBLE", "NUMERIC", "DECIMAL", "FLOAT"] := by
    simpa [hasPrecision] using h
  simp only [List.mem_cons, List.not_mem_nil, or_false] at hm
  rcases hm with h' | h' | h' | h' <;> subst h' <;> decide

theorem sqlDataTypes_of_isSized {t : String}
    (h : isSized t = true) : sqlDataTypes.contains t = true := by
  have hm : t ∈ ["CHAR", "VARCHAR", "BINARY", "VARBINARY", "TEXT"] := by
    simpa [isSized] using h
  simp only [List.mem_cons, List.not_mem_nil, or_false] at hm
  rcases hm with h' | h' | h' | h' | h' <;> subst h' <;> decide

/-- For a type name outside the recognized vocabulary, none of the named
dispatch cases of the type mappers can match. -/
theorem unknown_type_ne {t : String}
    (h : sqlDataTypes.contains t = false) {u : String}
    (hu : sqlDataTypes.contains u = true) : t ≠ u := by
  intro he
  rw [he, hu] at h
  cases h

/-- A concrete field with the unrecognized type name `FOO`. -/
def fooField : Field :=
  ⟨"f", "FOO", "", [], false, false, false, false, "", "", ""⟩

/-- Claim C4, counterexample: for an unrecognized type name the SQL Server
mapper does not fall back to `NVARCHAR(MAX)`; it passes the unrecognized
name through unchanged. -/
theorem mssql_unknown_type_not_nvarcharmax :
    getTypeString fooField ("mssql") false ≠ "NVARCHAR(MAX)" ∧
    getTypeString fooField ("mssql") false = "FOO" := by
  refine ⟨by decide, by decide⟩

/-- Claim C4, amended: an unrecognized type name never raises an error; it
falls back to `JSON` for MySQL/MariaDB (both use the `mysql` mapping) and
to `BLOB` for SQLite, while the SQL Server mapper emits the unrecognized
name unchanged (its `NVARCHAR(MAX)` output is the mapping of the
recognized type `JSON`, not an unknown-type fallback). -/
theorem unknown_type_fallbacks (field : Field)
    (h : sqlDataTypes.contains field.type = false) :
    getTypeString field ("mysql") false = "JSON" ∧
    getSQLiteType field = "BLOB" ∧
    getTypeString field ("mssql") false = field.type ∧
    getTypeString field ("mssql") true = field.type := by
  have hP : hasPrecision field.type = false := by
    cases hp : hasPrecision field.type
    · rfl
    · rw [sqlDataTypes_of_hasPrecision hp] at h; cases h
  have hS : isSized field.type = false := by
    cases hs : isSized field.type
    · rfl
    · rw [sqlDataTypes_of_isSized hs] at h; cases h
  have hmem : field.type ∉ sqlDataTypes := by simpa using h
  refine ⟨?_, ?_, ?_, ?_⟩
  · simp [getTypeString, hP, hS, h, hmem,
      @unknown_type_ne field.type h ("UUID") (by decide),
      @unknown_type_ne field.type h ("SET") (by decide),
      @unknown_type_ne field.type h ("ENUM") (by decide)]
  · have h1 := @unknown_type_ne field.type h ("INT") (by decide)
    have h2 := @unknown_type_ne field.type h ("SMALLINT") (by decide)
    have h3 := @unknown_type_ne field.type h ("BIGINT") (by decide)
    have h4 := @unknown_type_ne field.type h ("BOOLEAN") (by decide)
    have h5 := @unknown_type_ne field.type h ("DECIMAL") (by decide)
    have h6 := @unknown_type_ne field.type h ("NUMERIC") (by decide)
    have h7 := @unknown_type_ne field.type h ("FLOAT") (by decide)
    have h8 := @unknown_type_ne field.type h ("DOUBLE") (by decide)
    have h9 := @unknown_type_ne field.type h ("REAL") (by decide)
    have h10 := @unknown_type_ne field.type h ("CHAR") (by decide)
    have h11 := @unknown_type_ne field.type h ("VARCHAR") (by decide)
    have h12 := @unknown_type_ne field.type h ("UUID") (by decide)
    have h13 := @unknown_type_ne field.type h ("TEXT") (by decide)
    have h14 := @unknown_type_ne field.type h ("DATE") (by decide)
    have h15 := @unknown_type_ne field.type h ("TIME") (by decide)
    have h16 := @unknown_type_ne field.type h ("TIMESTAMP") (by decide)
    have h17 := @unknown_type_ne field.type h ("DATETIME") (by decide)
    have h18 := @unknown_type_ne field.type h ("BINARY") (by decide)
    have h19 := @unknown_type_ne field.type h ("VARBINARY") (by decide)
    have h20 := @unknown_type_ne field.type h ("ENUM") (by decide)
    simp [getSQLiteType, h1, h2, h3, h4, h5, h6, h7, h8, h9, h10, h11,
      h12, h13, h14, h15, h16, h17, h18, h19, h20]
  · simp [getTypeString, hS,
      @unknown_type_ne field.type h ("ENUM") (by decide),
      @unknown_type_ne field.type h ("BOOLEAN") (by decide),
      @unknown_type_ne field.type h ("SET") (by decide),
      @unknown_type_ne field.type h ("BLOB") (by decide),
      @unknown_type_ne field.type h ("JSON") (by decide),
      @unknown_type_ne field.type h ("TEXT") (by decide),
      @unknown_type_ne field.type h ("VARCHAR") (by decide),
      @unknown_type_ne field.type h ("UUID") (by decide),
      @unknown_type_ne field.type h ("DOUBLE") (by decide)]
  · simp [getTypeString, hS,
      @unknown_type_ne field.type h ("ENUM") (by decide),
      @unknown_type_ne field.type h ("BOOLEAN") (by decide),
      @unknown_type_ne field.type h ("SET") (by decide),
      @unknown_type_ne field.type h ("BLOB") (by decide),
      @unknown_type_ne field.type h ("JSON") (by decide),
      @unknown_type_ne field.type h ("TEXT") (by decide),
      @unknown_type_ne field.type h ("VARCHAR") (by decide),
      @unknown_type_ne field.type h ("UUID") (by decide),
      @unknown_type_ne field.type h ("DOUBLE") (by decide)]

/-- Witness for `unknown_type_fallbacks` at the concrete field `fooField`. -/
theorem unknown_type_fallbacks_witness :
    getTypeString fooField ("mysql") false = "JSON" ∧
    getSQLiteType fooField = "BLOB" ∧
    getTypeString fooField ("mssql") false = fooField.type ∧
    getTypeString fooField ("mssql") true = fooField.type :=
  unknown_type_fallbacks fooField (by decide)

/- ## Claim C6: schema fragment for an unrecognized field type -/

/-- Removes spaces, newlines and tabs, for comparing emitted text with the
claim's whitespace-free rendering of the fragment. -/
def stripWhitespace (s : String) : String :=
  ⟨s.data.filter (fun c => !(c == ' ' || c == '\n' || c == '\t'))⟩

/-- A composite type with a single field of unrecognized type. -/
def fooType : DType := ⟨"footype", "", [fooField]⟩

/-- Claim C6, counterexample: the emitted property fragment for an
unrecognized field type is not the claim's
`\x7b"type":"object","additionalProperties":true\x7d` — the
`additionalProperties` key is emitted without surrounding double quotes
(unlike the recognized-`JSON` branch, which quotes it). -/
theorem getJsonType_unknown_key_unquoted :
    stripWhitespace (getJsonType fooField) =
      "\x7b\"type\":\"object\",additionalProperties:true\x7d" ∧
    stripWhitespace (getJsonType fooField) ≠
      "\x7b\"type\":\"object\",\"additionalProperties\":true\x7d" := by
  refine ⟨by decide, by decide⟩

/-- Claim C6, amended: for a `Type` with one field of an unrecognized type
name, `generateSchema` yields a fragment with `"type": "object"` and
`"additionalProperties": false` at top level whose property for that field
is `\x7b "type" : "object", additionalProperties : true \x7d`, with the
inner `additionalProperties` key unquoted. -/
theorem generateSchema_unknown_field (t : DType) (f : Field)
    (ht : t.fields = [f]) (hf : sqlDataTypes.contains f.type = false) :
    getJsonType f =
      "\x7b \"type\" : \"object\", additionalProperties : true \x7d" ∧
    Substr ("\"" ++ f.name ++ "\" : " ++
      "\x7b \"type\" : \"object\", additionalProperties : true \x7d")
      (generateSchema t) ∧
    Substr ("\"type\": \"object\"") (generateSchema t) ∧
    Substr ("\"additionalProperties\": false") (generateSchema t) := by
  have hmem : f.type ∉ sqlDataTypes := by simpa using hf
  have hj : getJsonType f =
      "\x7b \"type\" : \"object\", additionalProperties : true \x7d" := by
    simp [getJsonType, hmem]
  have hg : generateSchema t =
      "\x7b\n\t\t\t\"$schema\": \"http://json-schema.org/draft-04/schema#\",\n\t\t\t\"type\": \"object\",\n\t\t\t\"properties\": \x7b\n\t\t\t\t" ++
      ("\"" ++ f.name ++ "\" : " ++
        "\x7b \"type\" : \"object\", additionalProperties : true \x7d") ++
      "\n\t\t\t\x7d,\n\t\t\t\"additionalProperties\": false\n\t\t\x7d" := by
    rw [generateSchema, ht]
    simp [joinSep, hj]
  refine ⟨hj, substr_of_split _ _ hg, ?_, ?_⟩
  · rw [hg]
    refine ((substr_of_split
      ("\x7b\n\t\t\t\"$schema\": \"http://json-schema.org/draft-04/schema#\",\n\t\t\t")
      (",\n\t\t\t\"properties\": \x7b\n\t\t\t\t") ?_).appR _).appR _
    rfl
  · rw [hg]
    refine ((substr_of_split ("\n\t\t\t\x7d,\n\t\t\t") ("\n\t\t\x7d")
      ?_).appL _)
    rfl

/-- Witness for `generateSchema_unknown_field` at `fooType`. -/
theorem generateSchema_unknown_field_witness :
    getJsonType fooField =
      "\x7b \"type\" : \"object\", additionalProperties : true \x7d" ∧
    Substr ("\"" ++ fooField.name ++ "\" : " ++
      "\x7b \"type\" : \"object\", additionalProperties : true \x7d")
      (generateSchema fooType) ∧
    Substr ("\"type\": \"object\"") (generateSchema fooType) ∧
    Substr ("\"additionalProperties\": false") (generateSchema fooType) :=
  generateSchema_unknown_field fooType fooField rfl (by decide)

/- ## Claim C10: the unsatisfiable guard in the SQL Server type emitter -/

/-- A composite type with an empty field sequence. -/
def emptyDType : DType := ⟨"empty", "", []⟩

/-- Claim C10: the guard `type.fields.length < 0` on the `CREATE TYPE` base
type is unsatisfiable, so the base type is always derived from the first
field; with at least one field the declaration succeeds using `fields[0]`,
and with an empty field sequence the `fields[0]` access is out of range
(modelled as `none`), which makes the whole SQL Server compilation crash. -/
theorem mssql_type_guard :
    (∀ t : DType, ¬ t.fields.length < 0) ∧
    (∀ (t : DType) (f : Field) (rest : List Field), t.fields = f :: rest →
      mssqlTypeDecl t = some
        ((if t.comment = "" then "" else "/**\n" ++ t.comment ++ "\n*/\n") ++
         "CREATE TYPE [" ++ t.name ++ "] FROM " ++
         getTypeString f ("mssql") true ++ ";\nGO\n")) ∧
    (∀ t : DType, t.fields = [] → mssqlTypeDecl t = none) ∧
    (∀ (obj : Diagram) (t : DType), t ∈ obj.types → t.fields = [] →
      jsonToSQLServer obj = none) := by
  refine ⟨fun t => Nat.not_lt_zero _, ?_, ?_, ?_⟩
  · intro t f rest ht
    simp [mssqlTypeDecl, ht]
  · intro t ht
    simp [mssqlTypeDecl, ht]
  · intro obj t hmem ht
    unfold jsonToSQLServer
    cases htys : optMap mssqlTypeDecl obj.types with
    | none => rfl
    | some tys =>
      obtain ⟨b, hb, _⟩ := optMap_mem htys hmem
      rw [mssqlTypeDecl, ht] at hb
      simp at hb

/-- Witness for `mssql_type_guard`: a one-field type is compiled from its
first field, and an empty type makes the declaration crash. -/
theorem mssql_type_guard_witness :
    mssqlTypeDecl fooType = some ("CREATE TYPE [footype] FROM FOO;\nGO\n") ∧
    mssqlTypeDecl emptyDType = none := by
  constructor
  · rw [mssql_type_guard.2.1 fooType fooField [] rfl]
    decide
  · exact mssql_type_guard.2.2.1 emptyDType rfl

/- ## Claim C9: the function-call pattern is anchored only at the end -/

theorem isFunction_mk (l : List Char) :
    isFunction ⟨l⟩ =
      (match l.reverse with
       | c :: rest => if c = ')' then isFnRev rest else false
       | [] => false) := rfl

theorem isFnRev_append (l : List Char) (hl : ∀ c ∈ l, c ≠ ')') (d : Char)
    (hd : isWordChar d = true) (t : List Char) :
    isFnRev (l ++ '(' :: d :: t) = true := by
  induction l with
  | nil => simp [isFnRev, hd]
  | cons c l' ih =>
    have hcl : c ≠ ')' := hl c (List.mem_cons_self _ _)
    have ih' := ih (fun x hx => hl x (List.mem_cons_of_mem _ hx))
    by_cases hc : c = '('
    · simp [isFnRev, hcl, hc, ih']
    · simp [isFnRev, hcl, hc, ih']

/-- Claim C9: the regex `\w+\([^)]*\)$` used by `isFunction` is anchored
only at the end of the string, so any default value ending with an
`identifier(args)` shape — whatever text precedes it — is classified as a
function call, and for a quoting-required field type such a default is
emitted unchanged instead of being wrapped in single quotes. -/
theorem isFunction_end_anchored (field : Field) (pre w inner : List Char)
    (hw : w ≠ []) (hwc : ∀ c ∈ w, isWordChar c = true)
    (hinner : ∀ c ∈ inner, c ≠ ')')
    (hdef : field.default = ⟨pre ++ w ++ '(' :: inner ++ [')']⟩)
    (hq : hasQuotes field.type = true) :
    isFunction field.default = true ∧ parseDefault field = field.default := by
  obtain ⟨ws, d, rfl⟩ : ∃ ws d, w = ws ++ [d] := by
    rcases List.eq_nil_or_concat w with h | ⟨ws, d, h⟩
    · exact absurd h hw
    · exact ⟨ws, d, by simpa [List.concat_eq_append] using h⟩
  have hfn : isFunction field.default = true := by
    rw [hdef, isFunction_mk]
    have hrev : (pre ++ (ws ++ [d]) ++ '(' :: inner ++ [')']).reverse
        = ')' :: (inner.reverse ++ '(' :: d ::
            (ws.reverse ++ pre.reverse)) := by
      simp [List.reverse_append]
    rw [hrev]
    show (if (')' : Char) = ')' then
        isFnRev (inner.reverse ++ '(' :: d :: (ws.reverse ++ pre.reverse))
      else false) = true
    rw [if_pos rfl]
    exact isFnRev_append inner.reverse
      (fun c hc => hinner c (List.mem_reverse.mp hc)) d
      (hwc d (by simp)) _
  exact ⟨hfn, by simp [parseDefault, hfn]⟩

/-- The concrete field of the claim: a `VARCHAR` default with leading text
before a function-call tail. -/
def fnDefaultField : Field :=
  ⟨"d", "VARCHAR", "", [], false, false, false, false, "abc foo(1)", "",
   ""⟩

/-- Witness for `isFunction_end_anchored` at default `abc foo(1)`. -/
theorem isFunction_end_anchored_witness :
    isFunction fnDefaultField.default = true ∧
    parseDefault fnDefaultField = fnDefaultField.default :=
  isFunction_end_anchored fnDefaultField ("abc ".data) ("foo".data)
    ("1".data) (by decide) (by decide) (by decide) (by decide) (by decide)

/- ## Claim C5: SQLite inline foreign keys, first matching reference only -/

theorem append_ne_empty_left (a b : String) (ha : a ≠ "") : a ++ b ≠ "" := by
  intro h
  have hd := congrArg String.data h
  rw [String.data_append] at hd
  have h2 : a.data = [] := (List.append_eq_nil.mp hd).1
  exact ha (String.ext h2)

theorem inlineFKText_ne_empty {table : Table} {tables : List Table}
    {r : Reference} {s : String}
    (h : inlineFKText table tables r = some s) : s ≠ "" := by
  unfold inlineFKText at h
  split at h
  · split at h
    · have hs := Option.some.inj h
      rw [← hs]
      exact append_ne_empty_left _ _ (append_ne_empty_left _ _
        (append_ne_empty_left _ _ (append_ne_empty_left _ _
          (append_ne_empty_left _ _ (append_ne_empty_left _ _
            (append_ne_empty_left _ _ (by decide)))))))
    · exact absurd h (by simp)
  · exact absurd h (by simp)

theorem getInlineFKAux_stable (table : Table) (tables : List Table) :
    ∀ (refs : List Reference) (fk : String), fk ≠ "" →
      getInlineFKAux table tables refs fk = some fk := by
  intro refs
  induction refs with
  | nil => intro fk _; rfl
  | cons r rest ih =>
    intro fk hfk
    unfold getInlineFKAux
    rw [if_pos hfk]
    exact ih fk hfk

theorem getInlineFKAux_empty_eq_find (table : Table) (tables : List Table) :
    ∀ refs : List Reference,
      getInlineFKAux table tables refs "" =
        (match refs.find? (fun r => r.startTableId == table.id) with
         | some r => inlineFKText table tables r
         | none => some "") := by
  intro refs
  induction refs with
  | nil => rfl
  | cons r rest ih =>
    unfold getInlineFKAux
    rw [if_neg (by simp)]
    by_cases hr : r.startTableId = table.id
    · rw [if_pos hr]
      have hfind : (r :: rest).find?
          (fun x => x.startTableId == table.id) = some r := by
        simp [List.find?_cons, hr]
      rw [hfind]
      show (match inlineFKText table tables r with
        | some s => getInlineFKAux table tables rest s
        | none => none) = inlineFKText table tables r
      cases hfk : inlineFKText table tables r with
      | none => rfl
      | some s =>
        exact getInlineFKAux_stable table tables rest s
          (inlineFKText_ne_empty hfk)
    · rw [if_neg hr]
      have hfind : (r :: rest).find?
          (fun x => x.startTableId == table.id) =
          rest.find? (fun x => x.startTableId == table.id) := by
        simp [List.find?_cons, hr]
      rw [hfind]
      exact ih

/-- Claim C5: the SQLite compiler emits foreign keys only as an inline
`FOREIGN KEY` clause inside the `CREATE TABLE` body (its output is just the
joined table statements, with no trailing `ALTER TABLE` section), and for
each table at most the first reference in diagram order whose
`startTableId` equals the table's id is honored — `getInlineFK` is exactly
a `find?` over the reference list, so all later matching references are
dropped. -/
theorem sqlite_inline_fk_first_only :
    (∀ (table : Table) (obj : Diagram),
       getInlineFK table obj =
         (match obj.references.find?
             (fun r => r.startTableId == table.id) with
          | some r => inlineFKText table obj.tables r
          | none => some "")) ∧
    (∀ (obj : Diagram) (table : Table) (s fk : String),
       sqliteTable obj table = some s → getInlineFK table obj = some fk →
       ∃ pre post, s = pre ++ "\t" ++ fk ++ "\n);\n" ++ post) ∧
    (∀ (obj : Diagram) (out : String), jsonToSQLite obj = some out →
       ∃ parts, optMap (sqliteTable obj) obj.tables = some parts ∧
         out = joinSep ("\n") parts) := by
  refine ⟨?_, ?_, ?_⟩
  · intro table obj
    exact getInlineFKAux_empty_eq_find table obj.tables obj.references
  · intro obj table s fk hs hfk
    unfold sqliteTable at hs
    rw [hfk] at hs
    have hv := Option.some.inj hs
    refine ⟨(if table.comment = "" then ""
        else "/* " ++ table.comment ++ " */\n") ++
      "CREATE TABLE IF NOT EXISTS \"" ++ table.name ++ "\" (\n" ++
      joinSep (",\n") (table.fields.map sqliteColumn) ++
      (if 0 < (table.fields.filter (fun f => f.primary)).length then
         ",\n\tPRIMARY KEY(" ++
         joinSep (", ")
           ((table.fields.filter (fun f => f.primary)).map
             (fun f => "\"" ++ f.name ++ "\"")) ++ ")" ++
         (if fk ≠ "" then ",\n" else "")
       else ""),
      (if 0 < table.indices.length then
         joinSep ("\n") (table.indices.map (sqliteIndex table.name))
       else ""), ?_⟩
    rw [← hv]
  · intro obj out h
    unfold jsonToSQLite at h
    cases hm : optMap (sqliteTable obj) obj.tables with
    | none => rw [hm] at h; simp at h
    | some parts =>
      rw [hm] at h
      exact ⟨parts, rfl, (Option.some.inj h).symm⟩

/- ## Output-shape helpers for the five compilers -/

theorem jsonToMySQL_shape {obj : Diagram} {out : String}
    (h : jsonToMySQL obj = some out) :
    ∃ ts rs, optMap (mysqlTable obj.types) obj.tables = some ts ∧
      optMap (mysqlRef obj.tables) obj.references = some rs ∧
      out = joinSep ("\n") ts ++ "\n" ++ joinSep ("\n") rs := by
  unfold jsonToMySQL at h
  cases h1 : optMap (mysqlTable obj.types) obj.tables with
  | none => rw [h1] at h; simp at h
  | some ts =>
    rw [h1] at h
    cases h2 : optMap (mysqlRef obj.tables) obj.references with
    | none => rw [h2] at h; simp at h
    | some rs =>
      rw [h2] at h
      exact ⟨ts, rs, rfl, rfl, (Option.some.inj h).symm⟩

theorem jsonToMariaDB_shape {obj : Diagram} {out : String}
    (h : jsonToMariaDB obj = some out) :
    ∃ ts rs, optMap (mariadbTable obj.types) obj.tables = some ts ∧
      optMap (mariadbRef obj.tables) obj.references = some rs ∧
      out = joinSep ("\n") ts ++ "\n" ++ joinSep ("\n") rs := by
  unfold jsonToMariaDB at h
  cases h1 : optMap (mariadbTable obj.types) obj.tables with
  | none => rw [h1] at h; simp at h
  | some ts =>
    rw [h1] at h
    cases h2 : optMap (mariadbRef obj.tables) obj.references with
    | none => rw [h2] at h; simp at h
    | some rs =>
      rw [h2] at h
      exact ⟨ts, rs, rfl, rfl, (Option.some.inj h).symm⟩

theorem jsonToPostgreSQL_shape {obj : Diagram} {out : String}
    (h : jsonToPostgreSQL obj = some out) :
    ∃ rs, optMap (pgRef obj.tables) obj.references = some rs ∧
      out = joinSep (",") (obj.types.map pgTypeDecl) ++ "\n" ++
        joinSep ("\n") (obj.tables.map pgTable) ++ "\n" ++
        joinSep ("\n") rs := by
  unfold jsonToPostgreSQL at h
  cases h1 : optMap (pgRef obj.tables) obj.references with
  | none => rw [h1] at h; simp at h
  | some rs =>
    rw [h1] at h
    exact ⟨rs, rfl, (Option.some.inj h).symm⟩

theorem jsonToSQLServer_shape {obj : Diagram} {out : String}
    (h : jsonToSQLServer obj = some out) :
    ∃ tys rs, optMap mssqlTypeDecl obj.types = some tys ∧
      optMap (mssqlRef obj.tables) obj.references = some rs ∧
      out = joinSep ("\n") tys ++ "\n" ++
        joinSep ("\n") (obj.tables.map mssqlTable) ++ "\n" ++
        joinSep ("\n") rs := by
  unfold jsonToSQLServer at h
  cases h1 : optMap mssqlTypeDecl obj.types with
  | none => rw [h1] at h; simp at h
  | some tys =>
    rw [h1] at h
    cases h2 : optMap (mssqlRef obj.tables) obj.references with
    | none => rw [h2] at h; simp at h
    | some rs =>
      rw [h2] at h
      exact ⟨tys, rs, rfl, rfl, (Option.some.inj h).symm⟩

theorem jsonToSQLite_shape {obj : Diagram} {out : String}
    (h : jsonToSQLite obj = some out) :
    ∃ parts, optMap (sqliteTable obj) obj.tables = some parts ∧
      out = joinSep ("\n") parts := by
  unfold jsonToSQLite at h
  cases hm : optMap (sqliteTable obj) obj.tables with
  | none => rw [hm] at h; simp at h
  | some parts =>
    rw [hm] at h
    exact ⟨parts, rfl, (Option.some.inj h).symm⟩

/- ## Claim C7: referential actions are emitted upper-cased -/

theorem mysqlRef_tail {tables : List Table} {r : Reference} {s : String}
    (h : mysqlRef tables r = some s) :
    ∃ pre, s = pre ++ refTailClause r ++ ";" := by
  unfold mysqlRef at h
  split at h
  · split at h
    · exact ⟨_, (Option.some.inj h).symm⟩
    · exact absurd h (by simp)
  · exact absurd h (by simp)

theorem pgRef_tail {tables : List Table} {r : Reference} {s : String}
    (h : pgRef tables r = some s) :
    ∃ pre, s = pre ++ refTailClause r ++ ";" := by
  unfold pgRef at h
  split at h
  · split at h
    · exact ⟨_, (Option.some.inj h).symm⟩
    · exact absurd h (by simp)
  · exact absurd h (by simp)

theorem mssqlRef_tail {tables : List Table} {r : Reference} {s : String}
    (h : mssqlRef tables r = some s) :
    ∃ pre, s = pre ++ refTailClause r ++ ";\nGO" := by
  unfold mssqlRef at h
  split at h
  · split at h
    · exact ⟨_, (Option.some.inj h).symm⟩
    · exact absurd h (by simp)
  · exact absurd h (by simp)

theorem inlineFKText_tail {table : Table} {tables : List Table}
    {r : Reference} {s : String} (h : inlineFKText table tables r = some s) :
    ∃ pre, s = pre ++ refTailClause r := by
  unfold inlineFKText at h
  split at h
  · split at h
    · exact ⟨_, (Option.some.inj h).symm⟩
    · exact absurd h (by simp)
  · exact absurd h (by simp)

/-- Claim C7: every `ON UPDATE`/`ON DELETE` clause emitted by any of the
five dialect compilers carries both referential actions upper-cased
(`refTailClause` applies `toUpperCase` to both), the emitted clause is
unchanged when the input actions change only in letter case, and for the
four ALTER-TABLE dialects the upper-cased clause of every reference occurs
in the full output. -/
theorem fk_actions_uppercased :
    (∀ r : Reference, refTailClause r =
      "ON UPDATE " ++ jsToUpperCase r.updateConstraint ++ " ON DELETE " ++
        jsToUpperCase r.deleteConstraint) ∧
    (∀ (r : Reference) (c d : String),
      jsToUpperCase c = jsToUpperCase r.updateConstraint →
      jsToUpperCase d = jsToUpperCase r.deleteConstraint →
      refTailClause ⟨r.startTableId, r.startFieldId, r.endTableId,
        r.endFieldId, c, d⟩ = refTailClause r) ∧
    (∀ (tables : List Table) (r : Reference) (s : String),
      mysqlRef tables r = some s → ∃ pre, s = pre ++ refTailClause r ++ ";") ∧
    (∀ (table : Table) (tables : List Table) (r : Reference) (s : String),
      inlineFKText table tables r = some s →
      ∃ pre, s = pre ++ refTailClause r) ∧
    (∀ (obj : Diagram) (out : String) (r : Reference),
      jsonToMySQL obj = some out → r ∈ obj.references →
      Substr (refTailClause r) out) ∧
    (∀ (obj : Diagram) (out : String) (r : Reference),
      jsonToPostgreSQL obj = some out → r ∈ obj.references →
      Substr (refTailClause r) out) ∧
    (∀ (obj : Diagram) (out : String) (r : Reference),
      jsonToMariaDB obj = some out → r ∈ obj.references →
      Substr (refTailClause r) out) ∧
    (∀ (obj : Diagram) (out : String) (r : Reference),
      jsonToSQLServer obj = some out → r ∈ obj.references →
      Substr (refTailClause r) out) := by
  refine ⟨fun r => rfl, ?_, fun tables r s h => mysqlRef_tail h,
    fun table tables r s h => inlineFKText_tail h, ?_, ?_, ?_, ?_⟩
  · intro r c d hc hd
    simp [refTailClause, hc, hd]
  · intro obj out r hout hr
    obtain ⟨ts, rs, _, h2, hshape⟩ := jsonToMySQL_shape hout
    obtain ⟨s, hs, hsm⟩ := optMap_mem h2 hr
    obtain ⟨pre, hpre⟩ := mysqlRef_tail hs
    rw [hshape]
    exact (((substr_of_split pre (";") hpre).trans
      (substr_joinSep_of_mem ("\n") hsm)).appL _)
  · intro obj out r hout hr
    obtain ⟨rs, h2, hshape⟩ := jsonToPostgreSQL_shape hout
    obtain ⟨s, hs, hsm⟩ := optMap_mem h2 hr
    obtain ⟨pre, hpre⟩ := pgRef_tail hs
    rw [hshape]
    exact (((substr_of_split pre (";") hpre).trans
      (substr_joinSep_of_mem ("\n") hsm)).appL _)
  · intro obj out r hout hr
    obtain ⟨ts, rs, _, h2, hshape⟩ := jsonToMariaDB_shape hout
    obtain ⟨s, hs, hsm⟩ := optMap_mem h2 hr
    obtain ⟨pre, hpre⟩ := mysqlRef_tail hs
    rw [hshape]
    exact (((substr_of_split pre (";") hpre).trans
      (substr_joinSep_of_mem ("\n") hsm)).appL _)
  · intro obj out r hout hr
    obtain ⟨tys, rs, _, h2, hshape⟩ := jsonToSQLServer_shape hout
    obtain ⟨s, hs, hsm⟩ := optMap_mem h2 hr
    obtain ⟨pre, hpre⟩ := mssqlRef_tail hs
    rw [hshape]
    exact (((substr_of_split pre (";\nGO") hpre).trans
      (substr_joinSep_of_mem ("\n") hsm)).appL _)

/- ## A concrete demonstration diagram shared by the witnesses -/

/-- An auto-increment primary key column. -/
def demoIdField : Field :=
  ⟨"id", "INT", "", [], false, false, true, true, "", "", ""⟩

/-- An `ENUM` column with two values. -/
def demoStatusField : Field :=
  ⟨"status", "ENUM", "", ["active", "banned"], false, false, false, false,
   "", "", ""⟩

/-- The `users` table with two indices. -/
def demoUsersTable : Table :=
  ⟨0, "users", "", [demoIdField, demoStatusField],
   [⟨"idx1", true, ["id"]⟩, ⟨"idx2", false, ["status"]⟩]⟩

/-- A plain integer column. -/
def demoUserIdField : Field :=
  ⟨"user_id", "INT", "", [], false, false, false, false, "", "", ""⟩

/-- A second plain integer column. -/
def demoAltIdField : Field :=
  ⟨"alt_id", "INT", "", [], false, false, false, false, "", "", ""⟩

/-- The `orders` table. -/
def demoOrdersTable : Table :=
  ⟨1, "orders", "", [demoUserIdField, demoAltIdField], []⟩

/-- First reference out of `orders`, with lower-case actions. -/
def demoRef1 : Reference := ⟨1, 0, 0, 0, "no action", "cascade"⟩

/-- Second reference out of `orders` (dropped by the SQLite compiler). -/
def demoRef2 : Reference := ⟨1, 1, 0, 0, "restrict", "set null"⟩

/-- A two-table diagram with two references starting at the same table. -/
def demoDiagram : Diagram :=
  ⟨[demoUsersTable, demoOrdersTable], [demoRef1, demoRef2], []⟩

/-- Witness for `sqlite_inline_fk_first_only`: the `orders` table statement
carries its inline foreign-key clause inside the `CREATE TABLE` body. -/
theorem sqlite_inline_fk_first_only_witness :
    ∃ pre post, (sqliteTable demoDiagram demoOrdersTable).getD "" =
      pre ++ "\t" ++ (getInlineFK demoOrdersTable demoDiagram).getD "" ++
      "\n);\n" ++ post :=
  sqlite_inline_fk_first_only.2.1 demoDiagram demoOrdersTable
    ((sqliteTable demoDiagram demoOrdersTable).getD "")
    ((getInlineFK demoOrdersTable demoDiagram).getD "") (by rfl) (by rfl)

/-- Witness for `fk_actions_uppercased`: the MySQL output of the demo
diagram contains the upper-cased clause of its first reference. -/
theorem fk_actions_uppercased_witness :
    Substr (refTailClause demoRef1) ((jsonToMySQL demoDiagram).getD "") :=
  fk_actions_uppercased.2.2.2.2.1 demoDiagram
    ((jsonToMySQL demoDiagram).getD "") demoRef1 (by rfl) (by decide)

/- ## Claim C3: exactly one trailing PRIMARY KEY clause -/

/-- The trailing composite primary-key clause shared by all five table
templates: empty when no field is flagged primary, otherwise one
`PRIMARY KEY(...)` listing the primary-flagged fields in declaration order
with the dialect's identifier wrapping. -/
def pkClause (wrap : String → String) (fields : List Field) : String :=
  if fields.filter (fun f => f.primary) = [] then ""
  else
    ",\n\tPRIMARY KEY(" ++
    joinSep (", ")
      ((fields.filter (fun f => f.primary)).map (fun f => wrap f.name)) ++
    ")"

theorem pk_source_eq (wrap : String → String) (fields : List Field) :
    (if 0 < (fields.filter (fun f => f.primary)).length then
       ",\n\tPRIMARY KEY(" ++
       joinSep (", ")
         ((fields.filter (fun f => f.primary)).map (fun f => wrap f.name)) ++
       ")"
     else "") = pkClause wrap fields := by
  unfold pkClause
  cases h : fields.filter (fun f => f.primary) with
  | nil => simp [h]
  | cons a l => simp [h]

theorem mysqlColumn_primary_inv (types : List DType) (f : Field) (b : Bool) :
    mysqlColumn types { f with primary := b } = mysqlColumn types f := by
  cases f
  rfl

theorem mariadbColumn_primary_inv (types : List DType) (f : Field)
    (b : Bool) :
    mariadbColumn types { f with primary := b } = mariadbColumn types f := by
  cases f
  rfl

theorem pgColumn_primary_inv (f : Field) (b : Bool) :
    pgColumn { f with primary := b } = pgColumn f := by
  cases f
  rfl

theorem sqliteColumn_primary_inv (f : Field) (b : Bool) :
    sqliteColumn { f with primary := b } = sqliteColumn f := by
  cases f
  rfl

theorem mssqlColumn_primary_inv (f : Field) (b : Bool) :
    mssqlColumn { f with primary := b } = mssqlColumn f := by
  cases f
  rfl

theorem mysqlTable_pk {types : List DType} {table : Table} {s : String}
    (h : mysqlTable types table = some s) :
    ∃ pre post,
      s = pre ++ pkClause (fun n => "`" ++ n ++ "`") table.fields ++ post := by
  unfold mysqlTable at h
  cases hc : optMap (mysqlColumn types) table.fields with
  | none => rw [hc] at h; simp at h
  | some cols =>
    rw [hc] at h
    have hv := Option.some.inj h
    refine ⟨(if table.comment = "" then ""
        else "/* " ++ table.comment ++ " */\n") ++
      "CREATE TABLE `" ++ table.name ++ "` (\n" ++ joinSep (",\n") cols,
      "\n)" ++
      (if table.comment ≠ "" then " COMMENT=" ++ sq ++ table.comment ++ sq
       else "") ++ ";\n" ++
      (if 0 < table.indices.length then
         "\n" ++ joinSep (",") (table.indices.map (mysqlIndex table.name))
       else ""), ?_⟩
    rw [← hv, ← pk_source_eq (fun n => "`" ++ n ++ "`") table.fields]
    apply String.ext
    simp [String.data_append]

theorem mariadbTable_pk {types : List DType} {table : Table} {s : String}
    (h : mariadbTable types table = some s) :
    ∃ pre post,
      s = pre ++ pkClause (fun n => "`" ++ n ++ "`") table.fields ++ post := by
  unfold mariadbTable at h
  cases hc : optMap (mariadbColumn types) table.fields with
  | none => rw [hc] at h; simp at h
  | some cols =>
    rw [hc] at h
    have hv := Option.some.inj h
    refine ⟨(if table.comment = "" then ""
        else "/* " ++ table.comment ++ " */\n") ++
      "CREATE OR REPLACE TABLE `" ++ table.name ++ "` (\n" ++
      joinSep (",\n") cols,
      "\n);" ++
      (if 0 < table.indices.length then
         "\n" ++ joinSep (",") (table.indices.map (mysqlIndex table.name))
       else ""), ?_⟩
    rw [← hv, ← pk_source_eq (fun n => "`" ++ n ++ "`") table.fields]
    apply String.ext
    simp [String.data_append]

theorem pgTable_pk (table : Table) :
    ∃ pre post,
      pgTable table =
        pre ++ pkClause (fun n => "\"" ++ n ++ "\"") table.fields ++ post := by
  refine ⟨(if table.comment = "" then ""
      else "/**\n" ++ table.comment ++ "\n*/\n") ++
    (if 0 < (table.fields.filter
        (fun f => f.type == "ENUM" || f.type == "SET")).length then
       joinSep (",")
         ((table.fields.filter
             (fun f => f.type == "ENUM" || f.type == "SET")).map
           pgEnumTypeForTable)
     else "") ++
    "CREATE TABLE \"" ++ table.name ++ "\" (\n" ++
    joinSep (",\n") (table.fields.map pgColumn),
    "\n);\n" ++
    (if 0 < table.indices.length then
       joinSep (",") (table.indices.map (pgIndex table.name))
     else ""), ?_⟩
  rw [← pk_source_eq (fun n => "\"" ++ n ++ "\"") table.fields]
  unfold pgTable
  apply String.ext
  simp [String.data_append]

theorem sqliteTable_pk {obj : Diagram} {table : Table} {s : String}
    (h : sqliteTable obj table = some s) :
    ∃ pre post,
      s = pre ++ pkClause (fun n => "\"" ++ n ++ "\"") table.fields ++
        post := by
  unfold sqliteTable at h
  cases hfk : getInlineFK table obj with
  | none => rw [hfk] at h; simp at h
  | some fk =>
    rw [hfk] at h
    have hv := Option.some.inj h
    cases hf : table.fields.filter (fun f => f.primary) with
    | nil =>
      refine ⟨(if table.comment = "" then ""
          else "/* " ++ table.comment ++ " */\n") ++
        "CREATE TABLE IF NOT EXISTS \"" ++ table.name ++ "\" (\n" ++
        joinSep (",\n") (table.fields.map sqliteColumn),
        "\t" ++ fk ++ "\n);\n" ++
        (if 0 < table.indices.length then
           joinSep ("\n") (table.indices.map (sqliteIndex table.name))
         else ""), ?_⟩
      rw [← hv]
      apply String.ext
      simp [String.data_append, pkClause, hf]
    | cons a l =>
      refine ⟨(if table.comment = "" then ""
          else "/* " ++ table.comment ++ " */\n") ++
        "CREATE TABLE IF NOT EXISTS \"" ++ table.name ++ "\" (\n" ++
        joinSep (",\n") (table.fields.map sqliteColumn),
        (if fk ≠ "" then ",\n" else "") ++
        "\t" ++ fk ++ "\n);\n" ++
        (if 0 < table.indices.length then
           joinSep ("\n") (table.indices.map (sqliteIndex table.name))
         else ""), ?_⟩
      rw [← hv]
      apply String.ext
      simp [String.data_append, pkClause, hf]

theorem mssqlTable_pk (table : Table) :
    ∃ pre post,
      mssqlTable table =
        pre ++ pkClause (fun n => "[" ++ n ++ "]") table.fields ++ post := by
  refine ⟨(if table.comment = "" then ""
      else "/**\n" ++ table.comment ++ "\n*/\n") ++
    "CREATE TABLE [" ++ table.name ++ "] (\n" ++
    joinSep (",\n") (table.fields.map mssqlColumn),
    "\n);\nGO\n" ++
    (if 0 < table.indices.length then
       joinSep (",") (table.indices.map (mssqlIndex table.name))
     else ""), ?_⟩
  rw [← pk_source_eq (fun n => "[" ++ n ++ "]") table.fields]
  unfold mssqlTable
  apply String.ext
  simp [String.data_append]

theorem pkClause_empty_iff (wrap : String → String) (fields : List Field) :
    pkClause wrap fields = "" ↔
      fields.filter (fun f => f.primary) = [] := by
  unfold pkClause
  cases h : fields.filter (fun f => f.primary) with
  | nil => simp [h]
  | cons a l =>
    rw [if_neg (by simp)]
    constructor
    · intro hbad
      exact absurd hbad (append_ne_empty_left _ _
        (append_ne_empty_left _ _ (by decide)))
    · intro hbad
      cases hbad

theorem pkClause_eq_of_ne (wrap : String → String) (fields : List Field)
    (h : fields.filter (fun f => f.primary) ≠ []) :
    pkClause wrap fields =
      ",\n\tPRIMARY KEY(" ++
      joinSep (", ")
        ((fields.filter (fun f => f.primary)).map (fun f => wrap f.name)) ++
      ")" := by
  unfold pkClause
  rw [if_neg h]

theorem pk_filter_sublist (fields : List Field) :
    ((fields.filter (fun f => f.primary)).map (fun f => f.name)).Sublist
      (fields.map (fun f => f.name)) :=
  (List.filter_sublist fields).map _

/-- Claim C3: for every dialect, each emitted `CREATE TABLE` statement
decomposes around a single trailing `pkClause`, which is empty exactly when
no field is flagged primary and otherwise is one `PRIMARY KEY(...)` listing
exactly the primary-flagged fields in table-declaration order; and no
column renderer depends on the `primary` flag, so no per-column
`PRIMARY KEY` modifier is ever emitted. -/
theorem primary_key_clause :
    (∀ (types : List DType) (f : Field) (b : Bool),
      mysqlColumn types { f with primary := b } = mysqlColumn types f) ∧
    (∀ (types : List DType) (f : Field) (b : Bool),
      mariadbColumn types { f with primary := b } = mariadbColumn types f) ∧
    (∀ (f : Field) (b : Bool),
      pgColumn { f with primary := b } = pgColumn f) ∧
    (∀ (f : Field) (b : Bool),
      sqliteColumn { f with primary := b } = sqliteColumn f) ∧
    (∀ (f : Field) (b : Bool),
      mssqlColumn { f with primary := b } = mssqlColumn f) ∧
    (∀ (types : List DType) (table : Table) (s : String),
      mysqlTable types table = some s →
      ∃ pre post,
        s = pre ++ pkClause (fun n => "`" ++ n ++ "`") table.fields ++
          post) ∧
    (∀ (types : List DType) (table : Table) (s : String),
      mariadbTable types table = some s →
      ∃ pre post,
        s = pre ++ pkClause (fun n => "`" ++ n ++ "`") table.fields ++
          post) ∧
    (∀ table : Table, ∃ pre post,
      pgTable table =
        pre ++ pkClause (fun n => "\"" ++ n ++ "\"") table.fields ++ post) ∧
    (∀ (obj : Diagram) (table : Table) (s : String),
      sqliteTable obj table = some s →
      ∃ pre post,
        s = pre ++ pkClause (fun n => "\"" ++ n ++ "\"") table.fields ++
          post) ∧
    (∀ table : Table, ∃ pre post,
      mssqlTable table =
        pre ++ pkClause (fun n => "[" ++ n ++ "]") table.fields ++ post) ∧
    (∀ (wrap : String → String) (fields : List Field),
      pkClause wrap fields = "" ↔
        fields.filter (fun f => f.primary) = []) ∧
    (∀ (wrap : String → String) (fields : List Field),
      fields.filter (fun f => f.primary) ≠ [] →
      pkClause wrap fields =
        ",\n\tPRIMARY KEY(" ++
        joinSep (", ")
          ((fields.filter (fun f => f.primary)).map
            (fun f => wrap f.name)) ++ ")") ∧
    (∀ fields : List Field,
      ((fields.filter (fun f => f.primary)).map (fun f => f.name)).Sublist
        (fields.map (fun f => f.name))) :=
  ⟨mysqlColumn_primary_inv, mariadbColumn_primary_inv, pgColumn_primary_inv,
   sqliteColumn_primary_inv, mssqlColumn_primary_inv,
   fun _ _ _ h => mysqlTable_pk h, fun _ _ _ h => mariadbTable_pk h,
   pgTable_pk, fun _ _ _ h => sqliteTable_pk h, mssqlTable_pk,
   pkClause_empty_iff, pkClause_eq_of_ne, pk_filter_sublist⟩

/-- Witness for `primary_key_clause`: the demo `users` table statement in
MySQL splits around its primary-key clause, and the clause lists the
primary field. -/
theorem primary_key_clause_witness :
    (∃ pre post, (mysqlTable ([]) demoUsersTable).getD "" =
      pre ++ pkClause (fun n => "`" ++ n ++ "`") demoUsersTable.fields ++
        post) ∧
    pkClause (fun n => "`" ++ n ++ "`") demoUsersTable.fields =
      ",\n\tPRIMARY KEY(" ++
      joinSep (", ")
        ((demoUsersTable.fields.filter (fun f => f.primary)).map
          (fun f => (fun n => "`" ++ n ++ "`") f.name)) ++ ")" :=
  ⟨primary_key_clause.2.2.2.2.2.1 ([]) demoUsersTable
    ((mysqlTable ([]) demoUsersTable).getD "") (by rfl),
   primary_key_clause.2.2.2.2.2.2.2.2.2.2.2.1
     (fun n => "`" ++ n ++ "`") demoUsersTable.fields (by decide)⟩

/- ## Claim C2: rendering of ENUM fields across dialects -/

/-- The `ENUM(...)` token the MySQL/MariaDB type mapping emits, with the
values double-quoted in their given order. -/
def mysqlEnumTok (f : Field) : String :=
  "ENUM(" ++ joinSep (", ") (f.values.map (fun v => "\"" ++ v ++ "\"")) ++
    ")"

/-- The `CHECK(... in (...))` token the SQLite type mapping emits, with the
values single-quoted in their given order. -/
def sqliteEnumTok (f : Field) : String :=
  "CHECK(\"" ++ f.name ++ "\" in (" ++
    joinSep (", ") (f.values.map (fun v => sq ++ v ++ sq)) ++ "))"

/-- The PostgreSQL column text referencing the named enumerated type
`<fieldName>_t`. -/
def pgEnumColTok (f : Field) : String :=
  "\"" ++ f.name ++ "\" " ++ f.name ++ "_t"

theorem getTypeString_mysql_enum {f : Field} (he : f.type = "ENUM") :
    getTypeString f ("mysql") false = mysqlEnumTok f := by
  have h1 : hasPrecision ("ENUM") = false := by decide
  have h2 : isSized ("ENUM") = false := by decide
  have hlit : ("ENUM" : String) ++ "(" = "ENUM(" := by decide
  unfold getTypeString mysqlEnumTok
  rw [if_pos rfl, if_neg (by rw [he]; decide),
    if_neg (by rw [he, h1, h2]; decide), if_pos (Or.inr he), he, ← hlit]

theorem getSQLiteType_enum {f : Field} (he : f.type = "ENUM") :
    getSQLiteType f = "TEXT " ++ sqliteEnumTok f := by
  have hlit : ("TEXT " : String) ++ "CHECK(\"" = "TEXT CHECK(\"" := by
    decide
  unfold getSQLiteType sqliteEnumTok
  rw [if_neg (by rw [he]; decide), if_neg (by rw [he]; decide),
    if_neg (by rw [he]; decide), if_pos he, ← hlit]
  apply String.ext
  simp [String.data_append]

theorem getTypeString_pg_enum {f : Field} (he : f.type = "ENUM") :
    getTypeString f ("postgres") false = f.name ++ "_t" := by
  unfold getTypeString
  rw [if_neg (by decide), if_pos rfl,
    if_neg (by rw [he]; simp), if_neg (by rw [he]; simp),
    if_neg (by rw [he]; simp), if_pos he]

theorem substr_decomp {n s : String} (h : Substr n s) :
    ∃ a b : String, s = a ++ n ++ b := by
  obtain ⟨u, v, huv⟩ := h
  refine ⟨⟨u⟩, ⟨v⟩, ?_⟩
  apply String.ext
  rw [String.data_append, String.data_append]
  exact huv.symm

theorem substrOrd_of_parts {m n X Y : String} (pre mid post : String)
    (hm : Substr m X) (hn : Substr n Y) :
    SubstrOrd m n (pre ++ X ++ mid ++ Y ++ post) := by
  obtain ⟨a, b, hab⟩ := substr_decomp hm
  obtain ⟨c, d, hcd⟩ := substr_decomp hn
  refine ⟨pre ++ a, b ++ mid ++ c, d ++ post, ?_⟩
  rw [hab, hcd]
  apply String.ext
  simp [String.data_append]

theorem SubstrOrd.mono {m n s h : String} (hs : SubstrOrd m n s)
    (hsub : Substr s h) : SubstrOrd m n h := by
  obtain ⟨a, b, c, habc⟩ := hs
  obtain ⟨u, v, huv⟩ := substr_decomp hsub
  refine ⟨u ++ a, b, c ++ v, ?_⟩
  rw [huv, habc]
  apply String.ext
  simp [String.data_append]

theorem mysqlColumn_enum {types : List DType} {f : Field}
    (he : f.type = "ENUM") :
    ∃ col, mysqlColumn types f = some col ∧ Substr (mysqlEnumTok f) col := by
  unfold mysqlColumn
  rw [if_pos (Or.inr (show (!(hasCheck f.type)) = true by rw [he]; decide)),
    if_neg (show ¬ (!(sqlDataTypes.contains f.type)) = true by
      rw [he]; decide)]
  refine ⟨_, rfl, ?_⟩
  rw [getTypeString_mysql_enum he]
  refine substr_of_split
    ((if f.comment = "" then "" else "\t-- " ++ f.comment ++ "\n") ++
      "\t`" ++ f.name ++ "` ")
    ((if f.notNull then " NOT NULL" else "") ++
      (if f.increment then " AUTO_INCREMENT" else "") ++
      (if f.unique then " UNIQUE" else "") ++
      (if f.default ≠ "" then " DEFAULT " ++ parseDefault f else "") ++
      "" ++
      (if f.comment ≠ "" then " COMMENT " ++ sq ++ f.comment ++ sq
       else "")) ?_
  apply String.ext
  simp [String.data_append]

theorem mariadbColumn_enum {types : List DType} {f : Field}
    (he : f.type = "ENUM") :
    ∃ col, mariadbColumn types f = some col ∧
      Substr (mysqlEnumTok f) col := by
  unfold mariadbColumn
  rw [if_pos (Or.inr (show (!(hasCheck f.type)) = true by rw [he]; decide)),
    if_neg (show ¬ (!(sqlDataTypes.contains f.type)) = true by
      rw [he]; decide)]
  refine ⟨_, rfl, ?_⟩
  rw [getTypeString_mysql_enum he]
  refine substr_of_split
    ((if f.comment = "" then "" else "\t-- " ++ f.comment ++ "\n") ++
      "\t`" ++ f.name ++ "` ")
    ((if f.notNull then " NOT NULL" else "") ++
      (if f.increment then " AUTO_INCREMENT" else "") ++
      (if f.unique then " UNIQUE" else "") ++
      (if f.default ≠ "" then " DEFAULT " ++ parseDefault f else "") ++
      "") ?_
  apply String.ext
  simp [String.data_append]

theorem sqliteColumn_enum {f : Field} (he : f.type = "ENUM") :
    ∃ a b, sqliteColumn f = a ++ sqliteEnumTok f ++ b := by
  refine ⟨(if f.comment = "" then "" else "\t-- " ++ f.comment ++ "\n") ++
    "\t\"" ++ f.name ++ "\" " ++ "TEXT ",
    (if f.notNull then " NOT NULL" else "") ++
    (if f.unique then " UNIQUE" else "") ++
    (if f.default ≠ "" then " DEFAULT " ++ parseDefault f else "") ++
    (if f.check = "" ∨ !(hasCheck f.type) then ""
     else " CHECK(" ++ f.check ++ ")"), ?_⟩
  unfold sqliteColumn
  rw [getSQLiteType_enum he]
  apply String.ext
  simp [String.data_append]

theorem pgColumn_enum {f : Field} (he : f.type = "ENUM") :
    ∃ a b, pgColumn f = a ++ pgEnumColTok f ++ b := by
  refine ⟨(if f.comment = "" then "" else "\t-- " ++ f.comment ++ "\n") ++
    "\t",
    (if f.notNull then " NOT NULL" else "") ++
    (if f.default ≠ "" then " DEFAULT " ++ parseDefault f else "") ++
    (if f.check = "" ∨ !(hasCheck f.type) then ""
     else " CHECK(" ++ f.check ++ ")"), ?_⟩
  unfold pgColumn pgEnumColTok
  rw [getTypeString_pg_enum he]
  have hlit : ("\t" : String) ++ "\"" = "\t\"" := by decide
  rw [← hlit]
  apply String.ext
  simp [String.data_append]

theorem mysqlTable_col_sub {types : List DType} {table : Table}
    {s : String} {f : Field} {col : String} (hf : f ∈ table.fields)
    (hc : mysqlColumn types f = some col)
    (h : mysqlTable types table = some s) : Substr col s := by
  unfold mysqlTable at h
  cases hcs : optMap (mysqlColumn types) table.fields with
  | none => rw [hcs] at h; simp at h
  | some cols =>
    rw [hcs] at h
    have hv := Option.some.inj h
    obtain ⟨b, hb, hbm⟩ := optMap_mem hcs hf
    rw [hc] at hb
    rw [← Option.some.inj hb] at hbm
    rw [← hv]
    exact (((((((substr_joinSep_of_mem (",\n") hbm).appL _).appR _).appR
      _).appR _).appR _).appR _)

theorem mariadbTable_col_sub {types : List DType} {table : Table}
    {s : String} {f : Field} {col : String} (hf : f ∈ table.fields)
    (hc : mariadbColumn types f = some col)
    (h : mariadbTable types table = some s) : Substr col s := by
  unfold mariadbTable at h
  cases hcs : optMap (mariadbColumn types) table.fields with
  | none => rw [hcs] at h; simp at h
  | some cols =>
    rw [hcs] at h
    have hv := Option.some.inj h
    obtain ⟨b, hb, hbm⟩ := optMap_mem hcs hf
    rw [hc] at hb
    rw [← Option.some.inj hb] at hbm
    rw [← hv]
    exact (((((substr_joinSep_of_mem (",\n") hbm).appL _).appR _).appR
      _).appR _)

theorem sqliteTable_col_sub {obj : Diagram} {table : Table} {s : String}
    {f : Field} (hf : f ∈ table.fields)
    (h : sqliteTable obj table = some s) : Substr (sqliteColumn f) s := by
  unfold sqliteTable at h
  cases hfk : getInlineFK table obj with
  | none => rw [hfk] at h; simp at h
  | some fk =>
    rw [hfk] at h
    have hv := Option.some.inj h
    rw [← hv]
    exact (((((((substr_joinSep_of_mem (",\n")
      (List.mem_map_of_mem _ hf)).appL _).appR _).appR _).appR _).appR
      _).appR _)

theorem pgTable_col_sub {table : Table} {f : Field}
    (hf : f ∈ table.fields) : Substr (pgColumn f) (pgTable table) := by
  unfold pgTable
  exact ((((substr_joinSep_of_mem (",\n")
    (List.mem_map_of_mem _ hf)).appL _).appR _).appR _).appR _

theorem pgTable_enum_ord {table : Table} {f : Field}
    (hf : f ∈ table.fields) (he : f.type = "ENUM") :
    SubstrOrd (pgEnumTypeForTable f) (pgEnumColTok f) (pgTable table) := by
  have hmemES : f ∈ table.fields.filter
      (fun g => g.type == "ENUM" || g.type == "SET") :=
    List.mem_filter.mpr ⟨hf, by simp [he]⟩
  have hES : 0 < (table.fields.filter
      (fun g => g.type == "ENUM" || g.type == "SET")).length :=
    List.length_pos.mpr (List.ne_nil_of_mem hmemES)
  have hX : Substr (pgEnumTypeForTable f)
      (joinSep (",")
        ((table.fields.filter
            (fun g => g.type == "ENUM" || g.type == "SET")).map
          pgEnumTypeForTable)) :=
    substr_joinSep_of_mem (",") (List.mem_map_of_mem _ hmemES)
  obtain ⟨a, b, hab⟩ := pgColumn_enum he
  have hY : Substr (pgEnumColTok f)
      (joinSep (",\n") (table.fields.map pgColumn)) :=
    (substr_of_split a b hab).trans
      (substr_joinSep_of_mem (",\n") (List.mem_map_of_mem _ hf))
  have hshape : pgTable table =
      (if table.comment = "" then ""
       else "/**\n" ++ table.comment ++ "\n*/\n") ++
      joinSep (",")
        ((table.fields.filter
            (fun g => g.type == "ENUM" || g.type == "SET")).map
          pgEnumTypeForTable) ++
      ("CREATE TABLE \"" ++ table.name ++ "\" (\n") ++
      joinSep (",\n") (table.fields.map pgColumn) ++
      ((if 0 < (table.fields.filter (fun g => g.primary)).length then
          ",\n\tPRIMARY KEY(" ++
          joinSep (", ")
            ((table.fields.filter (fun g => g.primary)).map
              (fun g => "\"" ++ g.name ++ "\"")) ++ ")"
        else "") ++ "\n);\n" ++
       (if 0 < table.indices.length then
          joinSep (",") (table.indices.map (pgIndex table.name))
        else "")) := by
    unfold pgTable
    rw [if_pos hES]
    apply String.ext
    simp [String.data_append]
  rw [hshape]
  exact substrOrd_of_parts _ _ _ hX hY

/-- Claim C2: for every `ENUM` field of a table of the diagram, the MySQL
and MariaDB outputs contain `ENUM(...)` with the values double-quoted in
their given order, the SQLite output contains a `CHECK(... in (...))` over
the same values in the same order, and the PostgreSQL output contains a
`CREATE TYPE "<fieldName>_t" AS ENUM (...)` statement preceding the column
that references the named type `<fieldName>_t`. -/
theorem enum_rendering (obj : Diagram) (t : Table) (f : Field)
    (ht : t ∈ obj.tables) (hf : f ∈ t.fields) (he : f.type = "ENUM")
    (hvals : f.values ≠ []) :
    (∀ out, jsonToMySQL obj = some out → Substr (mysqlEnumTok f) out) ∧
    (∀ out, jsonToMariaDB obj = some out → Substr (mysqlEnumTok f) out) ∧
    (∀ out, jsonToSQLite obj = some out → Substr (sqliteEnumTok f) out) ∧
    (∀ out, jsonToPostgreSQL obj = some out →
      SubstrOrd (pgEnumTypeForTable f) (pgEnumColTok f) out) := by
  refine ⟨?_, ?_, ?_, ?_⟩
  · intro out hout
    obtain ⟨ts, rs, h1, h2, hsh⟩ := jsonToMySQL_shape hout
    obtain ⟨s, hsm, hsmem⟩ := optMap_mem h1 ht
    obtain ⟨col, hcol, htok⟩ := @mysqlColumn_enum obj.types f he
    rw [hsh]
    exact (((htok.trans (mysqlTable_col_sub hf hcol hsm)).trans
      (substr_joinSep_of_mem ("\n") hsmem)).appR _).appR _
  · intro out hout
    obtain ⟨ts, rs, h1, h2, hsh⟩ := jsonToMariaDB_shape hout
    obtain ⟨s, hsm, hsmem⟩ := optMap_mem h1 ht
    obtain ⟨col, hcol, htok⟩ := @mariadbColumn_enum obj.types f he
    rw [hsh]
    exact (((htok.trans (mariadbTable_col_sub hf hcol hsm)).trans
      (substr_joinSep_of_mem ("\n") hsmem)).appR _).appR _
  · intro out hout
    obtain ⟨parts, h1, hsh⟩ := jsonToSQLite_shape hout
    obtain ⟨s, hsm, hsmem⟩ := optMap_mem h1 ht
    obtain ⟨a, b, hab⟩ := sqliteColumn_enum he
    rw [hsh]
    exact ((substr_of_split a b hab).trans
      (sqliteTable_col_sub hf hsm)).trans
      (substr_joinSep_of_mem ("\n") hsmem)
  · intro out hout
    obtain ⟨rs, h1, hsh⟩ := jsonToPostgreSQL_shape hout
    rw [hsh]
    exact (pgTable_enum_ord hf he).mono
      ((((substr_joinSep_of_mem ("\n")
        (List.mem_map_of_mem _ ht)).appL _).appR _).appR _)

/-- Witness for `enum_rendering`: the demo diagram's `status` field renders
as `ENUM("active", "banned")` in the MySQL output. -/
theorem enum_rendering_witness :
    Substr (mysqlEnumTok demoStatusField)
      ((jsonToMySQL demoDiagram).getD "") :=
  (enum_rendering demoDiagram demoUsersTable demoStatusField (by decide)
    (by decide) (by decide) (by decide)).1
    ((jsonToMySQL demoDiagram).getD "") (by rfl)

/- ## Claim C8: separators between consecutive CREATE INDEX statements -/

theorem mysqlTable_idx_pair {types : List DType} {table : Table}
    {s : String} {i1 i2 : TableIndex} {rest : List TableIndex}
    (hidx : table.indices = i1 :: i2 :: rest)
    (h : mysqlTable types table = some s) :
    Substr (mysqlIndex table.name i1 ++ "," ++ mysqlIndex table.name i2)
      s := by
  unfold mysqlTable at h
  cases hcs : optMap (mysqlColumn types) table.fields with
  | none => rw [hcs] at h; simp at h
  | some cols =>
    rw [hcs] at h
    rw [← Option.some.inj h, hidx,
      if_pos (show 0 < (i1 :: i2 :: rest).length by simp)]
    exact ((substr_joinSep_pair (",") _ _ _).appL ("\n")).appL _

theorem mariadbTable_idx_pair {types : List DType} {table : Table}
    {s : String} {i1 i2 : TableIndex} {rest : List TableIndex}
    (hidx : table.indices = i1 :: i2 :: rest)
    (h : mariadbTable types table = some s) :
    Substr (mysqlIndex table.name i1 ++ "," ++ mysqlIndex table.name i2)
      s := by
  unfold mariadbTable at h
  cases hcs : optMap (mariadbColumn types) table.fields with
  | none => rw [hcs] at h; simp at h
  | some cols =>
    rw [hcs] at h
    rw [← Option.some.inj h, hidx,
      if_pos (show 0 < (i1 :: i2 :: rest).length by simp)]
    exact ((substr_joinSep_pair (",") _ _ _).appL ("\n")).appL _

theorem pgTable_idx_pair {table : Table} {i1 i2 : TableIndex}
    {rest : List TableIndex} (hidx : table.indices = i1 :: i2 :: rest) :
    Substr (pgIndex table.name i1 ++ "," ++ pgIndex table.name i2)
      (pgTable table) := by
  unfold pgTable
  rw [hidx, if_pos (show 0 < (i1 :: i2 :: rest).length by simp)]
  exact (substr_joinSep_pair (",") _ _ _).appL _

theorem mssqlTable_idx_pair {table : Table} {i1 i2 : TableIndex}
    {rest : List TableIndex} (hidx : table.indices = i1 :: i2 :: rest) :
    Substr (mssqlIndex table.name i1 ++ "," ++ mssqlIndex table.name i2)
      (mssqlTable table) := by
  unfold mssqlTable
  rw [hidx, if_pos (show 0 < (i1 :: i2 :: rest).length by simp)]
  exact (substr_joinSep_pair (",") _ _ _).appL _

theorem sqliteTable_idx_pair {obj : Diagram} {table : Table} {s : String}
    {i1 i2 : TableIndex} {rest : List TableIndex}
    (hidx : table.indices = i1 :: i2 :: rest)
    (h : sqliteTable obj table = some s) :
    Substr (sqliteIndex table.name i1 ++ "\n" ++ sqliteIndex table.name i2)
      s := by
  unfold sqliteTable at h
  cases hfk : getInlineFK table obj with
  | none => rw [hfk] at h; simp at h
  | some fk =>
    rw [hfk] at h
    rw [← Option.some.inj h, hidx,
      if_pos (show 0 < (i1 :: i2 :: rest).length by simp)]
    exact (substr_joinSep_pair ("\n") _ _ _).appL _

/-- Claim C8: when a table has two or more indices, the MySQL, PostgreSQL,
MariaDB and SQL Server compilers interpolate the mapped index-statement
array without an explicit join, so JavaScript's array-to-string coercion
separates consecutive `CREATE INDEX` statements with a comma; the SQLite
compiler joins its index statements with an explicit newline instead. -/
theorem index_statement_separators (obj : Diagram) (t : Table)
    (i1 i2 : TableIndex) (rest : List TableIndex) (ht : t ∈ obj.tables)
    (hidx : t.indices = i1 :: i2 :: rest) :
    (∀ out, jsonToMySQL obj = some out →
      Substr (mysqlIndex t.name i1 ++ "," ++ mysqlIndex t.name i2) out) ∧
    (∀ out, jsonToPostgreSQL obj = some out →
      Substr (pgIndex t.name i1 ++ "," ++ pgIndex t.name i2) out) ∧
    (∀ out, jsonToMariaDB obj = some out →
      Substr (mysqlIndex t.name i1 ++ "," ++ mysqlIndex t.name i2) out) ∧
    (∀ out, jsonToSQLServer obj = some out →
      Substr (mssqlIndex t.name i1 ++ "," ++ mssqlIndex t.name i2) out) ∧
    (∀ out, jsonToSQLite obj = some out →
      Substr (sqliteIndex t.name i1 ++ "\n" ++ sqliteIndex t.name i2)
        out) := by
  refine ⟨?_, ?_, ?_, ?_, ?_⟩
  · intro out hout
    obtain ⟨ts, rs, h1, h2, hsh⟩ := jsonToMySQL_shape hout
    obtain ⟨s, hsm, hsmem⟩ := optMap_mem h1 ht
    rw [hsh]
    exact (((mysqlTable_idx_pair hidx hsm).trans
      (substr_joinSep_of_mem ("\n") hsmem)).appR _).appR _
  · intro out hout
    obtain ⟨rs, h1, hsh⟩ := jsonToPostgreSQL_shape hout
    rw [hsh]
    exact (((pgTable_idx_pair hidx).trans
      (substr_joinSep_of_mem ("\n")
        (List.mem_map_of_mem _ ht))).appL _).appR _ |>.appR _
  · intro out hout
    obtain ⟨ts, rs, h1, h2, hsh⟩ := jsonToMariaDB_shape hout
    obtain ⟨s, hsm, hsmem⟩ := optMap_mem h1 ht
    rw [hsh]
    exact (((mariadbTable_idx_pair hidx hsm).trans
      (substr_joinSep_of_mem ("\n") hsmem)).appR _).appR _
  · intro out hout
    obtain ⟨tys, rs, h1, h2, hsh⟩ := jsonToSQLServer_shape hout
    rw [hsh]
    exact (((mssqlTable_idx_pair hidx).trans
      (substr_joinSep_of_mem ("\n")
        (List.mem_map_of_mem _ ht))).appL _).appR _ |>.appR _
  · intro out hout
    obtain ⟨parts, h1, hsh⟩ := jsonToSQLite_shape hout
    obtain ⟨s, hsm, hsmem⟩ := optMap_mem h1 ht
    rw [hsh]
    exact (sqliteTable_idx_pair hidx hsm).trans
      (substr_joinSep_of_mem ("\n") hsmem)

/-- Witness for `index_statement_separators`: the demo `users` table has
two indices; in the MySQL output they are separated by a comma, and in the
SQLite output by a newline. -/
theorem index_statement_separators_witness :
    Substr (mysqlIndex demoUsersTable.name (⟨"idx1", true, ["id"]⟩) ++
      "," ++ mysqlIndex demoUsersTable.name (⟨"idx2", false, ["status"]⟩))
      ((jsonToMySQL demoDiagram).getD "") ∧
    Substr (sqliteIndex demoUsersTable.name (⟨"idx1", true, ["id"]⟩) ++
      "\n" ++
      sqliteIndex demoUsersTable.name (⟨"idx2", false, ["status"]⟩))
      ((jsonToSQLite demoDiagram).getD "") :=
  ⟨(index_statement_separators demoDiagram demoUsersTable
      (⟨"idx1", true, ["id"]⟩) (⟨"idx2", false, ["status"]⟩) ([])
      (by decide) (by decide)).1
    ((jsonToMySQL demoDiagram).getD "") (by rfl),
   (index_statement_separators demoDiagram demoUsersTable
      (⟨"idx1", true, ["id"]⟩) (⟨"idx2", false, ["status"]⟩) ([])
      (by decide) (by decide)).2.2.2.2
    ((jsonToSQLite demoDiagram).getD "") (by rfl)⟩

end DrawDB
